import Mathlib

set_option maxHeartbeats 1000000

/-!
Shallow embedding of the course_selection_api year-term settings / course-entry
core (data_access_object/school_year_settings_dao.py, theme_dao.py and the
business models school_year_business.py, school_year_settings_business.py).

The relational store is modelled as lists of rows, one structure per table.
Primary keys are Nat, drawn from a fresh-id counter (`nextId`) standing in for
uuid4.  `'Y'`/`'N'` flag columns are Bool.  `week_numbers` is an
`Option (List Nat)` (NULL or a JSON array).  SQL unique-constraint violations
are modelled by an explicit key check before an insert; the Python code
catches them by inspecting the error text, which the `DbErr.uniqueViolation`
constructor stands for.  `datetime` audit columns carry no behaviour relevant
to the claims and are omitted.
-/

/-- Row of coures_themes (theme_dao.py). -/
structure Theme where
  id : Nat
  theme_code : String
  theme_name : String
  theme_short_name : String
deriving DecidableEq, Repr

/-- Row of coures_sub_themes (theme_dao.py). -/
structure SubTheme where
  id : Nat
  theme_id : Nat
  sub_theme_code : String
  sub_theme_name : String
deriving DecidableEq, Repr

/-- Row of academic_year_coures_themes_setting. -/
structure ThemeSetting where
  id : Nat
  academic_year : Nat
  academic_term : Nat
  theme_id : Nat
  fill_in_week_enabled : Bool
  scale_max : Nat
  select_most_relevant : Bool
deriving DecidableEq, Repr

/-- Row of academic_year_coures_sub_theme_settings. -/
structure SubThemeSetting where
  id : Nat
  academic_year : Nat
  academic_term : Nat
  sub_theme_id : Nat
  enabled : Bool
deriving DecidableEq, Repr

/-- Row of course_entries. -/
structure CourseEntry where
  id : Nat
  subj_no : String
  ps_class_nbr : String
  academic_year : Nat
  academic_term : Nat
  sub_theme_id : Nat
  indicator_value : String
  week_numbers : Option (List Nat)
  is_most_relevant : Bool
deriving DecidableEq, Repr

/-- The database state: one list per table plus the fresh-id supply and the
read-only external SCHOOL.COFSUBJ roster (subj_no to Chinese name). -/
structure Db where
  themes : List Theme
  subThemes : List SubTheme
  themeSettings : List ThemeSetting
  subThemeSettings : List SubThemeSetting
  courseEntries : List CourseEntry
  cofsubj : List (String × String)
  nextId : Nat
deriving DecidableEq, Repr

/-- Database-layer failures: a unique-constraint violation (Oracle ORA-00001,
recognised by the Python code by its message text) or a ValueError raised by a
DAO method. -/
inductive DbErr where
  | uniqueViolation : DbErr
  | valueError : String → DbErr
deriving DecidableEq, Repr

/-- Domain errors surfaced over HTTP by the business layer. -/
inductive ApiError where
  | notFound : String → ApiError
  | badRequest : String → ApiError
  | conflict : String → ApiError
  | internal : String → ApiError
deriving DecidableEq, Repr

/-- HTTP status code attached to each error kind (fastapi status constants in
the business layer). -/
def ApiError.status : ApiError → Nat
  | .notFound _ => 404
  | .badRequest _ => 400
  | .conflict _ => 409
  | .internal _ => 500

/-- ThemeDAO.get_theme_by_code: SELECT from coures_themes WHERE theme_code. -/
def get_theme_by_code (db : Db) (code : String) : Option Theme :=
  db.themes.find? (fun t => t.theme_code == code)

/-- Join of a sub-theme id through coures_sub_themes and coures_themes; the
inner JOIN used by most entry/setting queries. -/
def catalogJoin (db : Db) (sid : Nat) : Option (SubTheme × Theme) :=
  match db.subThemes.find? (fun st => st.id == sid) with
  | none => none
  | some st =>
    match db.themes.find? (fun t => t.id == st.theme_id) with
    | none => none
    | some t => some (st, t)

/-- Python `if week_numbers:` truthiness before json.dumps: None and the empty
list are both stored as SQL NULL. -/
def normWeeks : Option (List Nat) → Option (List Nat)
  | none => none
  | some [] => none
  | some l => some l

/-- Lexicographic comparison of character lists by codepoint, the order SQL
ORDER BY and Python sorted apply to these ASCII code strings. -/
def charListLt : List Char → List Char → Bool
  | _, [] => false
  | [], _ :: _ => true
  | a :: as, b :: bs =>
    if a.toNat < b.toNat then true
    else if b.toNat < a.toNat then false
    else charListLt as bs

/-- Lexicographic string comparison by codepoint. -/
def strLt (a b : String) : Bool := charListLt a.data b.data

/-- Insert x in front of the first strictly greater element (stable when used
left-to-right, matching Python sorted / SQL ORDER BY). -/
def insortBy (lt : α → α → Bool) (x : α) : List α → List α
  | [] => [x]
  | y :: ys => if lt x y then x :: y :: ys else y :: insortBy lt x ys

/-- Stable sort by a strict comparison, folding from the left. -/
def stableSortBy (lt : α → α → Bool) (l : List α) : List α :=
  l.foldl (fun acc x => insortBy lt x acc) []

/-- Number of course_entries rows carrying one natural key. -/
def entryKeyCount (l : List CourseEntry) (subj cls : String) (y t sid : Nat) : Nat :=
  (l.filter (fun e => e.subj_no == subj && e.ps_class_nbr == cls &&
    e.academic_year == y && e.academic_term == t && e.sub_theme_id == sid)).length

/-- Number of academic_year_coures_sub_theme_settings rows carrying one
(year, term, sub_theme_id) key. -/
def subKeyCount (l : List SubThemeSetting) (y t sid : Nat) : Nat :=
  (l.filter (fun s => s.academic_year == y && s.academic_term == t &&
    s.sub_theme_id == sid)).length

/-- Joined view of a course_entries row as returned by the entry SELECTs
(row columns plus st.sub_theme_code, st.sub_theme_name, t.theme_code). -/
structure EntryView where
  row : CourseEntry
  sub_theme_code : String
  sub_theme_name : String
  theme_code : String
deriving DecidableEq, Repr

/-- Builds the joined view of one entry row; none when the inner JOIN on the
catalog fails. -/
def entryViewOf (db : Db) (e : CourseEntry) : Option EntryView :=
  (catalogJoin db e.sub_theme_id).map (fun p =>
    ⟨e, p.1.sub_theme_code, p.1.sub_theme_name, p.2.theme_code⟩)

/-- CourseEntriesDAO.get_course_entry_by_sub_theme_id: first row matching the
natural key, joined with the catalog. -/
def get_course_entry_by_sub_theme_id (db : Db) (subj cls : String) (y t sid : Nat) :
    Option EntryView :=
  (db.courseEntries.find? (fun e => e.subj_no == subj && e.ps_class_nbr == cls &&
    e.academic_year == y && e.academic_term == t && e.sub_theme_id == sid)).bind
    (entryViewOf db)

/-- CourseEntriesDAO.get_course_entry_by_id. -/
def get_course_entry_by_id (db : Db) (eid : Nat) : Option EntryView :=
  (db.courseEntries.find? (fun e => e.id == eid)).bind (entryViewOf db)

/-- The UPDATE statement of CourseEntriesDAO.update_course_entry_by_id:
indicator_value and week_numbers are always written (week_numbers to NULL when
the argument is falsy), is_most_relevant only when the argument is not None. -/
def updateEntryRow (ind : String) (weeks : Option (List Nat)) (isMR : Option Bool)
    (e : CourseEntry) : CourseEntry :=
  { e with indicator_value := ind,
           week_numbers := normWeeks weeks,
           is_most_relevant := match isMR with | some b => b | none => e.is_most_relevant }

/-- CourseEntriesDAO.update_course_entry_by_id: run the dynamic UPDATE WHERE
id, then re-read the row. -/
def update_course_entry_by_id (db : Db) (eid : Nat) (ind : String)
    (weeks : Option (List Nat)) (isMR : Option Bool) : Option EntryView × Db :=
  let db' := { db with courseEntries := db.courseEntries.map (fun e =>
      if e.id == eid then updateEntryRow ind weeks isMR e else e) }
  (get_course_entry_by_id db' eid, db')

/-- The sub-theme resolution query of CourseEntriesDAO.create_course_entry:
first catalog sub-theme with the given code having an enabled setting row for
the year-term. -/
def findEnabledSubThemeByCode (db : Db) (y t : Nat) (code : String) : Option SubTheme :=
  db.subThemes.find? (fun st => st.sub_theme_code == code &&
    db.subThemeSettings.any (fun s => s.academic_year == y && s.academic_term == t &&
      s.sub_theme_id == st.id && s.enabled))

/-- CourseEntriesDAO.create_course_entry: resolve the sub-theme through an
enabled setting (ValueError if none), then update in place if the natural key
exists, else insert. -/
def create_course_entry (db : Db) (subj cls : String) (y t : Nat) (code : String)
    (ind : String) (weeks : Option (List Nat)) (isMR : Bool) :
    Except DbErr (Option EntryView × Db) :=
  match findEnabledSubThemeByCode db y t code with
  | none => .error (.valueError ("細項主題 " ++ code ++ " 沒有啟用設定"))
  | some st =>
    match get_course_entry_by_sub_theme_id db subj cls y t st.id with
    | some v => .ok (update_course_entry_by_id db v.row.id ind weeks (some isMR))
    | none =>
      if db.courseEntries.any (fun e => e.subj_no == subj && e.ps_class_nbr == cls &&
          e.academic_year == y && e.academic_term == t && e.sub_theme_id == st.id)
      then .error .uniqueViolation
      else
        let e : CourseEntry := ⟨db.nextId, subj, cls, y, t, st.id, ind, normWeeks weeks, isMR⟩
        let db' := { db with courseEntries := db.courseEntries ++ [e], nextId := db.nextId + 1 }
        .ok (get_course_entry_by_id db' e.id, db')

/-- SchoolYearBusiness.create_course_entry: ValueError becomes 400, a missing
result becomes 400, an unrecognised database error propagates as 500. -/
def business_create_course_entry (db : Db) (subj cls : String) (y t : Nat) (code : String)
    (ind : String) (weeks : Option (List Nat)) (isMR : Bool) :
    Except ApiError (EntryView × Db) :=
  match create_course_entry db subj cls y t code ind weeks isMR with
  | .error (.valueError m) => .error (.badRequest m)
  | .error .uniqueViolation => .error (.internal "database error")
  | .ok (none, _) => .error (.badRequest "課程填寫記錄創建失敗")
  | .ok (some v, db') => .ok (v, db')

/-- SubThemeDAO.get_sub_themes_by_theme_id: catalog sub-themes of one theme,
ORDER BY sub_theme_code. -/
def get_sub_themes_by_theme_id (db : Db) (tid : Nat) : List SubTheme :=
  stableSortBy (fun a b => strLt a.sub_theme_code b.sub_theme_code)
    (db.subThemes.filter (fun st => st.theme_id == tid))

/-- One line of the sub_themes LEFT JOIN used by the theme-setting SELECTs:
catalog fields plus COALESCE(systs.enabled, 'N') for the year-term. -/
structure SubThemeStatusView where
  sub_theme_id : Nat
  sub_theme_code : String
  sub_theme_name : String
  enabled : Bool
deriving DecidableEq, Repr

/-- The enabled flag the LEFT JOIN produces for one catalog sub-theme:
the setting row's flag when present, else false. -/
def subEnabledLookup (db : Db) (y t sid : Nat) : Bool :=
  ((db.subThemeSettings.find? (fun s => s.sub_theme_id == sid &&
    s.academic_year == y && s.academic_term == t)).map (fun s => s.enabled)).getD false

/-- All catalog sub-themes of a theme with their LEFT JOIN enabled status,
ORDER BY sub_theme_code. -/
def subThemeStatusList (db : Db) (y t tid : Nat) : List SubThemeStatusView :=
  (get_sub_themes_by_theme_id db tid).map (fun st =>
    ⟨st.id, st.sub_theme_code, st.sub_theme_name, subEnabledLookup db y t st.id⟩)

/-- Joined view of an academic_year_coures_themes_setting row with its theme
and the LEFT JOIN over its sub-themes, as the theme-setting SELECTs return. -/
structure ThemeSettingView where
  setting_id : Nat
  theme_code : String
  theme_name : String
  fill_in_week_enabled : Bool
  scale_max : Nat
  select_most_relevant : Bool
  sub_themes : List SubThemeStatusView
deriving DecidableEq, Repr

/-- SchoolYearThemeSettingsDAO.get_school_year_theme_setting_by_code. -/
def get_school_year_theme_setting_by_code (db : Db) (y t : Nat) (code : String) :
    Option ThemeSettingView :=
  match get_theme_by_code db code with
  | none => none
  | some th =>
    match db.themeSettings.find? (fun s => s.academic_year == y &&
        s.academic_term == t && s.theme_id == th.id) with
    | none => none
    | some s => some ⟨s.id, th.theme_code, th.theme_name, s.fill_in_week_enabled,
        s.scale_max, s.select_most_relevant, subThemeStatusList db y t th.id⟩

/-- One iteration of the sub-theme materialization loop in
create_school_year_theme_setting: INSERT with enabled='Y', swallowing the
unique-constraint violation when the (year, term, sub_theme_id) key exists. -/
def insertSubSettingSkipDup (db : Db) (y t sid : Nat) (en : Bool) : Db :=
  if db.subThemeSettings.any (fun s => s.academic_year == y && s.academic_term == t &&
      s.sub_theme_id == sid)
  then db
  else { db with subThemeSettings := db.subThemeSettings ++ [⟨db.nextId, y, t, sid, en⟩],
                 nextId := db.nextId + 1 }

/-- SchoolYearThemeSettingsDAO.create_school_year_theme_setting: resolve the
theme (ValueError if absent), INSERT the setting row (unique per year, term,
theme), re-read the joined view, then insert one enabled sub-theme setting per
catalog sub-theme, skipping keys that already exist. -/
def create_school_year_theme_setting (db : Db) (y t : Nat) (code : String)
    (fw : Bool) (sm : Nat) (mr : Bool) : Except DbErr (Option ThemeSettingView × Db) :=
  match get_theme_by_code db code with
  | none => .error (.valueError ("主題代碼 " ++ code ++ " 不存在"))
  | some th =>
    if db.themeSettings.any (fun s => s.academic_year == y && s.academic_term == t &&
        s.theme_id == th.id)
    then .error .uniqueViolation
    else
      let db1 := { db with
        themeSettings := db.themeSettings ++ [⟨db.nextId, y, t, th.id, fw, sm, mr⟩],
        nextId := db.nextId + 1 }
      match get_school_year_theme_setting_by_code db1 y t code with
      | none => .ok (none, db1)
      | some v =>
        let db2 := (get_sub_themes_by_theme_id db1 th.id).foldl
          (fun d st => insertSubSettingSkipDup d y t st.id true) db1
        .ok (some v, db2)

/-- Joined view of an academic_year_coures_sub_theme_settings row as returned
by get_school_year_sub_theme_setting_by_id (inner JOIN with the catalog). -/
structure SubSettingView where
  id : Nat
  academic_year : Nat
  academic_term : Nat
  sub_theme_id : Nat
  theme_code : String
  sub_theme_code : String
  sub_theme_name : String
  enabled : Bool
deriving DecidableEq, Repr

/-- SchoolYearSubThemeSettingsDAO.get_school_year_sub_theme_setting_by_id. -/
def get_school_year_sub_theme_setting_by_id (db : Db) (sid : Nat) :
    Option SubSettingView :=
  (db.subThemeSettings.find? (fun s => s.id == sid)).bind (fun s =>
    (catalogJoin db s.sub_theme_id).map (fun p =>
      ⟨s.id, s.academic_year, s.academic_term, s.sub_theme_id,
       p.2.theme_code, p.1.sub_theme_code, p.1.sub_theme_name, s.enabled⟩))

/-- The UPDATE enabled WHERE id statement on sub-theme settings. -/
def updateSubSettingRow (db : Db) (sid : Nat) (en : Bool) : Db :=
  { db with subThemeSettings := db.subThemeSettings.map (fun s =>
      if s.id == sid then { s with enabled := en } else s) }

/-- SchoolYearSubThemeSettingsDAO.update_school_year_sub_theme_setting: update
in place when the setting id resolves; otherwise, when year and term are
given, reinterpret the id as a sub_theme_id and update the setting for that
(year, term, sub_theme_id) when present, else insert a new row.  Returns none
when nothing resolves. -/
def update_school_year_sub_theme_setting (db : Db) (sid : Nat) (en : Bool)
    (y? t? : Option Nat) : Option SubSettingView × Db :=
  match get_school_year_sub_theme_setting_by_id db sid with
  | some _ =>
    let db' := updateSubSettingRow db sid en
    (get_school_year_sub_theme_setting_by_id db' sid, db')
  | none =>
    match y?, t? with
    | some y, some t =>
      match catalogJoin db sid with
      | none => (none, db)
      | some _ =>
        match db.subThemeSettings.find? (fun s => s.academic_year == y &&
            s.academic_term == t && s.sub_theme_id == sid) with
        | some s0 =>
          let db' := updateSubSettingRow db s0.id en
          (get_school_year_sub_theme_setting_by_id db' s0.id, db')
        | none =>
          let row : SubThemeSetting := ⟨db.nextId, y, t, sid, en⟩
          let db' := { db with subThemeSettings := db.subThemeSettings ++ [row],
                               nextId := db.nextId + 1 }
          (get_school_year_sub_theme_setting_by_id db' row.id, db')
    | _, _ => (none, db)

/-- SchoolYearSubThemeSettingsBusiness.update_school_year_sub_theme_setting:
404 when the DAO resolves nothing; state is returned alongside to model the
non-transactional connection. -/
def business_update_sub_theme_setting (db : Db) (sid : Nat) (en : Bool)
    (y? t? : Option Nat) : Except ApiError SubSettingView × Db :=
  match update_school_year_sub_theme_setting db sid en y? t? with
  | (none, db') => (.error (.notFound ("找不到設定ID " ++ toString sid)), db')
  | (some v, db') => (.ok v, db')

/-- CourseEntriesDAO.check_most_relevant_validation: does the course already
hold an is_most_relevant='Y' entry under the theme, excluding one
sub_theme_code when given (COUNT(*) > 0). -/
def check_most_relevant_validation (db : Db) (subj cls : String) (y t : Nat)
    (tc : String) (excl : Option String) : Bool :=
  db.courseEntries.any (fun e =>
    e.subj_no == subj && e.ps_class_nbr == cls && e.academic_year == y &&
    e.academic_term == t && e.is_most_relevant &&
    (match catalogJoin db e.sub_theme_id with
     | some p => p.2.theme_code == tc &&
         (match excl with
          | some c => !(p.1.sub_theme_code == c)
          | none => true)
     | none => false))

/-- SchoolYearBusiness.update_course_entry_by_id: when is_most_relevant is
being set true on an existing entry, reject with 400 if a sibling sub-theme of
the same theme already holds it; otherwise run the DAO update and 404 on a
missing result.  The state is returned alongside the outcome. -/
def business_update_course_entry_by_id (db : Db) (eid : Nat) (ind : String)
    (weeks : Option (List Nat)) (isMR : Option Bool) :
    Except ApiError EntryView × Db :=
  let validationFailed :=
    match isMR with
    | some b =>
      match get_course_entry_by_id db eid with
      | some v => b && check_most_relevant_validation db v.row.subj_no v.row.ps_class_nbr
          v.row.academic_year v.row.academic_term v.theme_code (some v.sub_theme_code)
      | none => false
    | none => false
  if validationFailed then
    (.error (.badRequest "該課程在主題下已有其他最相關的 sub_theme"), db)
  else
    match update_course_entry_by_id db eid ind weeks isMR with
    | (none, db') => (.error (.notFound "課程填寫記錄不存在或更新失敗"), db')
    | (some v, db') => (.ok v, db')

/-- One item of a batch create request (schema fields forwarded by
SchoolYearBusiness.create_course_entries_batch). -/
structure BatchEntry where
  subj_no : String
  ps_class_nbr : String
  academic_year : Nat
  academic_term : Nat
  sub_theme_code : String
  indicator_value : String
  week_numbers : Option (List Nat)
  is_most_relevant : Bool
deriving DecidableEq, Repr

/-- CourseEntriesDAO.create_course_entries_batch: sequential loop; an item
that raises is logged and skipped (its partial state is the pre-item state,
as create_course_entry raises before any write), a none result is dropped,
successes are collected in order. -/
def create_course_entries_batch (db : Db) : List BatchEntry → List EntryView × Db
  | [] => ([], db)
  | e :: rest =>
    match create_course_entry db e.subj_no e.ps_class_nbr e.academic_year
        e.academic_term e.sub_theme_code e.indicator_value e.week_numbers
        e.is_most_relevant with
    | .error _ => create_course_entries_batch db rest
    | .ok (none, db') => create_course_entries_batch db' rest
    | .ok (some v, db') =>
      let r := create_course_entries_batch db' rest
      (v :: r.1, r.2)

/-- SchoolYearBusiness.create_course_entries_batch: 400 when no item produced
a result, otherwise the list of successes. -/
def business_create_course_entries_batch (db : Db) (entries : List BatchEntry) :
    Except ApiError (List EntryView × Db) :=
  let r := create_course_entries_batch db entries
  if r.1.isEmpty then .error (.badRequest "批量創建課程填寫記錄失敗")
  else .ok r

/-- Result counters of
SchoolYearThemeSettingsDAO.copy_school_year_theme_settings. -/
structure CopyCounts where
  themes_count : Nat
  sub_themes_count : Nat
  deleted_themes_count : Nat
  deleted_sub_themes_count : Nat
deriving DecidableEq, Repr

/-- Source enabled flag carried over by the copy: the LEFT JOIN on the source
year-term, COALESCE to 'N'. -/
def sourceEnabledFlag (db : Db) (sy st sid : Nat) : Bool :=
  ((db.subThemeSettings.find? (fun s => s.sub_theme_id == sid &&
    s.academic_year == sy && s.academic_term == st)).map (fun s => s.enabled)).getD false

/-- Membership of a theme-setting row in one year-term. -/
def tgtTheme (y t : Nat) (s : ThemeSetting) : Bool :=
  s.academic_year == y && s.academic_term == t

/-- Membership of a sub-theme-setting row in one year-term. -/
def tgtSub (y t : Nat) (s : SubThemeSetting) : Bool :=
  s.academic_year == y && s.academic_term == t

/-- The copyable payload of a theme-setting row: which theme it configures and
the three option flags, without the surrogate id and year-term. -/
def themeConfig (s : ThemeSetting) : Nat × Bool × Nat × Bool :=
  (s.theme_id, s.fill_in_week_enabled, s.scale_max, s.select_most_relevant)

/-- The copyable payload of a sub-theme-setting row. -/
def subConfig (s : SubThemeSetting) : Nat × Bool :=
  (s.sub_theme_id, s.enabled)

/-- Catalog sub-themes of one theme, in table order. -/
def themeSubs (db : Db) (tid : Nat) : List SubTheme :=
  db.subThemes.filter (fun su => su.theme_id == tid)

/-- The (sub_theme_id, enabled) payloads the copy materialises under one
theme: every catalog sub-theme of the theme with its source enabled flag. -/
def copiedSubConfigs (db : Db) (sy st tid : Nat) : List (Nat × Bool) :=
  (themeSubs db tid).map (fun su => (su.id, sourceEnabledFlag db sy st su.id))

/-- No setting row yet holds the (year, term, sub_theme_id) key: the negation
of the skip-guard of the copy's sub-theme INSERT loop. -/
def subKeyFree (db : Db) (y t sid : Nat) : Bool :=
  !(db.subThemeSettings.any (fun s => s.academic_year == y &&
    s.academic_term == t && s.sub_theme_id == sid))

/-- The catalog sub-themes of one theme whose (year, term, id) key is still
free: exactly the ones the copy's INSERT loop inserts rather than skips. -/
def freshThemeSubs (db : Db) (y t tid : Nat) : List SubTheme :=
  (themeSubs db tid).filter (fun su => subKeyFree db y t su.id)

/-- The (sub_theme_id, enabled) payloads the copy actually inserts under one
theme: the free-key catalog sub-themes with their source enabled flags. -/
def copiedSubConfigsFresh (db : Db) (sy st y t tid : Nat) : List (Nat × Bool) :=
  (freshThemeSubs db y t tid).map (fun su => (su.id, sourceEnabledFlag db sy st su.id))

/-- The theme-setting rows of one year-term, as the source-rows SELECT of the
copy returns them. -/
def srcThemeRows (db : Db) (sy st : Nat) : List ThemeSetting :=
  db.themeSettings.filter (fun s => s.academic_year == sy && s.academic_term == st)

/-- One sub-theme setting INSERT of the copy loop: skip when the target
year-term already holds a setting for the sub-theme (the unique-constraint
continue branch), otherwise append the new row and count it. -/
def subCopyStep (ty tt : Nat) (acc : Nat × Db) (p : Nat × Bool) : Nat × Db :=
  if acc.2.subThemeSettings.any (fun s => s.academic_year == ty &&
      s.academic_term == tt && s.sub_theme_id == p.1)
  then acc
  else (acc.1 + 1,
    { acc.2 with
      subThemeSettings := acc.2.subThemeSettings ++
        [(⟨acc.2.nextId, ty, tt, p.1, p.2⟩ : SubThemeSetting)],
      nextId := acc.2.nextId + 1 })

/-- One iteration of the theme loop of copy_school_year_theme_settings: INSERT
the target theme-setting row (a duplicate key raises), snapshot each catalog
sub-theme with its source enabled flag, then insert the sub-theme settings
skipping duplicate keys, counting the successful inserts. -/
def copyOneTheme (db : Db) (sy st ty tt : Nat) (row : ThemeSetting) :
    Except DbErr (Nat × Db) :=
  if db.themeSettings.any (fun s => s.academic_year == ty && s.academic_term == tt &&
      s.theme_id == row.theme_id)
  then .error .uniqueViolation
  else
    let newRow : ThemeSetting := ⟨db.nextId, ty, tt, row.theme_id,
      row.fill_in_week_enabled, row.scale_max, row.select_most_relevant⟩
    let db1 : Db := { db with
      themeSettings := db.themeSettings ++ [newRow],
      nextId := db.nextId + 1 }
    let subs : List (Nat × Bool) :=
      (db1.subThemes.filter (fun su => su.theme_id == row.theme_id)).map
        (fun su => (su.id, sourceEnabledFlag db1 sy st su.id))
    .ok (subs.foldl (subCopyStep ty tt) (0, db1))

/-- The theme loop of copy_school_year_theme_settings over the source rows. -/
def copyThemesLoop (sy st ty tt : Nat) :
    List ThemeSetting → Nat × Nat × Db → Except DbErr (Nat × Nat × Db)
  | [], acc => .ok acc
  | r :: rs, acc =>
    match copyOneTheme acc.2.2 sy st ty tt r with
    | .error e => .error e
    | .ok (n, db') => copyThemesLoop sy st ty tt rs (acc.1 + 1, acc.2.1 + n, db')

/-- SchoolYearThemeSettingsDAO.copy_school_year_theme_settings: ValueError
when the source year-term has no theme settings; when the target year-term has
theme settings, first delete all its sub-theme settings and theme settings,
counting both; then re-query the source rows and copy each theme with its
sub-themes. -/
def copy_school_year_theme_settings (db : Db) (sy st ty tt : Nat) :
    Except DbErr (CopyCounts × Db) :=
  let sourceCount := (srcThemeRows db sy st).length
  if sourceCount == 0 then
    .error (.valueError "來源學年期不存在主題設定")
  else
    let targetCount := (db.themeSettings.filter (tgtTheme ty tt)).length
    let targetSubCount := (db.subThemeSettings.filter (tgtSub ty tt)).length
    let cleared :=
      if targetCount > 0 then
        (targetCount, targetSubCount,
         { db with
           subThemeSettings := db.subThemeSettings.filter (fun s => !tgtSub ty tt s),
           themeSettings := db.themeSettings.filter (fun s => !tgtTheme ty tt s) })
      else (0, 0, db)
    let db1 := cleared.2.2
    let sourceRows := srcThemeRows db1 sy st
    match copyThemesLoop sy st ty tt sourceRows (0, 0, db1) with
    | .error e => .error e
    | .ok (tc, sc, db2) => .ok (⟨tc, sc, cleared.1, cleared.2.1⟩, db2)

/-- Sub-theme resolution by code through a year-term setting row without the
enabled filter (the query shared by get_course_entry and
copy_course_entry_with_new_user). -/
def findSubThemeByCodeAnySetting (db : Db) (y t : Nat) (code : String) :
    Option SubTheme :=
  db.subThemes.find? (fun st => st.sub_theme_code == code &&
    db.subThemeSettings.any (fun s => s.academic_year == y && s.academic_term == t &&
      s.sub_theme_id == st.id))

/-- CourseEntriesDAO.get_course_entry: resolve sub_theme_code through the
year-term setting rows, then read the entry by natural key. -/
def get_course_entry (db : Db) (subj cls : String) (y t : Nat) (code : String) :
    Option EntryView :=
  match findSubThemeByCodeAnySetting db y t code with
  | none => none
  | some su => get_course_entry_by_sub_theme_id db subj cls y t su.id

/-- CourseEntriesDAO.delete_course_entry_by_id: re-read the joined view, then
DELETE WHERE id; none (and no delete) when the view does not resolve. -/
def delete_course_entry_by_id (db : Db) (eid : Nat) : Option EntryView × Db :=
  match get_course_entry_by_id db eid with
  | none => (none, db)
  | some v => (some v,
      { db with courseEntries := db.courseEntries.filter (fun e => !(e.id == eid)) })

/-- CourseEntriesDAO.delete_course_entry: resolve by code, then delete by
id; silently does nothing when the code does not resolve to an entry. -/
def delete_course_entry (db : Db) (subj cls : String) (y t : Nat) (code : String) :
    Option EntryView × Db :=
  match get_course_entry db subj cls y t code with
  | none => (none, db)
  | some v => delete_course_entry_by_id db v.row.id

/-- CourseEntriesDAO.get_course_entries_by_subj_no: all entries of one course
in a year-term, joined with the catalog, ORDER BY theme_code, sub_theme_code. -/
def get_course_entries_by_subj_no (db : Db) (subj cls : String) (y t : Nat) :
    List EntryView :=
  stableSortBy (fun a b => strLt a.theme_code b.theme_code ||
      (a.theme_code == b.theme_code && strLt a.sub_theme_code b.sub_theme_code))
    ((db.courseEntries.filter (fun e => e.subj_no == subj && e.ps_class_nbr == cls &&
      e.academic_year == y && e.academic_term == t)).filterMap (entryViewOf db))

/-- CourseEntriesDAO.get_enabled_theme_sub_themes: the (theme_code,
sub_theme_code) pairs having an enabled setting in the year-term.  The SQL
DISTINCT and ORDER BY only affect duplication and order, not membership, which
is all copy_course_entries reads from it. -/
def get_enabled_theme_sub_themes (db : Db) (y t : Nat) : List (String × String) :=
  (db.subThemeSettings.filter (fun s => s.academic_year == y && s.academic_term == t &&
    s.enabled)).filterMap (fun s =>
      (catalogJoin db s.sub_theme_id).map (fun p => (p.2.theme_code, p.1.sub_theme_code)))

/-- CourseEntriesDAO.copy_course_entry_with_new_user: resolve sub_theme_code
through any setting row of the target year-term (ValueError if none) and
INSERT the copied entry. -/
def copy_course_entry_with_new_user (db : Db) (subj cls : String) (y t : Nat)
    (code : String) (ind : String) (weeksJson : Option (List Nat)) (isMR : Bool) :
    Except DbErr (Option EntryView × Db) :=
  match findSubThemeByCodeAnySetting db y t code with
  | none => .error (.valueError ("細項主題 " ++ code ++ " 沒有設定"))
  | some su =>
    if db.courseEntries.any (fun e => e.subj_no == subj && e.ps_class_nbr == cls &&
        e.academic_year == y && e.academic_term == t && e.sub_theme_id == su.id)
    then .error .uniqueViolation
    else
      let e : CourseEntry := ⟨db.nextId, subj, cls, y, t, su.id, ind, weeksJson, isMR⟩
      let db' := { db with courseEntries := db.courseEntries ++ [e],
                           nextId := db.nextId + 1 }
      .ok (get_course_entry_by_id db' e.id, db')

/-- Result counters of SchoolYearBusiness.copy_course_entries. -/
structure CopyEntriesResult where
  copied_count : Nat
  skipped_count : Nat
  deleted_count : Nat
deriving DecidableEq, Repr

/-- The copy loop of SchoolYearBusiness.copy_course_entries: copy each source
entry whose (theme_code, sub_theme_code) pair is enabled in the target,
otherwise count it skipped. -/
def copyEntriesLoop (subj cls : String) (ty tt : Nat)
    (enabledPairs : List (String × String)) :
    List EntryView → Nat × Nat × Db → Except DbErr (Nat × Nat × Db)
  | [], acc => .ok acc
  | v :: vs, acc =>
    if enabledPairs.contains (v.theme_code, v.sub_theme_code) then
      match copy_course_entry_with_new_user acc.2.2 subj cls ty tt v.sub_theme_code
          v.row.indicator_value (normWeeks v.row.week_numbers) v.row.is_most_relevant with
      | .error e => .error e
      | .ok (_, db') => copyEntriesLoop subj cls ty tt enabledPairs vs (acc.1 + 1, acc.2.1, db')
    else
      copyEntriesLoop subj cls ty tt enabledPairs vs (acc.1, acc.2.1 + 1, acc.2.2)

/-- SchoolYearBusiness.copy_course_entries: 404 when the course has no source
entries or the target year-term has no enabled settings; delete the course's
pre-existing target entries (deleted_count is the number found, whether or not
each by-code delete resolves), then run the filtered copy loop; any database
error surfaces as 500. -/
def copy_course_entries (db : Db) (subj cls : String) (sy st ty tt : Nat) :
    Except ApiError (CopyEntriesResult × Db) :=
  let sourceEntries := get_course_entries_by_subj_no db subj cls sy st
  if sourceEntries.isEmpty then
    .error (.notFound "課程在來源學年期沒有填寫記錄")
  else
    let enabledPairs := get_enabled_theme_sub_themes db ty tt
    if enabledPairs.isEmpty then
      .error (.notFound "目標學年期沒有啟用的主題設定")
    else
      let existingTarget := get_course_entries_by_subj_no db subj cls ty tt
      let deletedCount := existingTarget.length
      let db1 := existingTarget.foldl (fun d v =>
        (delete_course_entry d subj cls ty tt v.sub_theme_code).2) db
      match copyEntriesLoop subj cls ty tt enabledPairs sourceEntries (0, 0, db1) with
      | .error _ => .error (.internal "複製課程記錄失敗")
      | .ok (c, s, db2) => .ok (⟨c, s, deletedCount⟩, db2)

/-- SchoolYearThemeSettingsDAO.get_school_year_theme_settings_by_year: all
theme settings of a year-term with theme join and sub-theme LEFT JOIN, ORDER
BY theme_code (sub-themes ordered by code inside each view). -/
def get_school_year_theme_settings_by_year (db : Db) (y t : Nat) :
    List ThemeSettingView :=
  stableSortBy (fun a b => strLt a.theme_code b.theme_code)
    ((db.themeSettings.filter (fun s => s.academic_year == y &&
      s.academic_term == t)).filterMap (fun s =>
        (db.themes.find? (fun th => th.id == s.theme_id)).map (fun th =>
          ⟨s.id, th.theme_code, th.theme_name, s.fill_in_week_enabled,
           s.scale_max, s.select_most_relevant, subThemeStatusList db y t th.id⟩)))

/-- The sdgs_number_map literal of export_course_entries_to_csv. -/
def sdgsNumberMap : String → Option String
  | "01" => some "1.消除貧窮"
  | "02" => some "2.消除飢餓"
  | "03" => some "3.健康與福祉"
  | "04" => some "4.教育品質"
  | "05" => some "5.性別平等"
  | "06" => some "6.淨水與衛生"
  | "07" => some "7.可負擔能源"
  | "08" => some "8.就業與經濟成長"
  | "09" => some "9.工業、創新基礎建設"
  | "10" => some "10.減少不平等"
  | "11" => some "11.永續城市"
  | "12" => some "12.責任消費與生產"
  | "13" => some "13.氣候行動"
  | "14" => some "14.海洋生態"
  | "15" => some "15.陸地生態"
  | "16" => some "16.和平與正義制度"
  | "17" => some "17.全球夥伴"
  | _ => none

/-- The week_name_map literal of export_course_entries_to_csv. -/
def weekNameMap : String → String → Option String
  | "A301", "1020" => some "實作週次"
  | "A301", "1080" => some "人文關懷週次"
  | "A301", "1120" => some "媒體識讀或資訊判讀週次"
  | "A301", "1130" => some "媒體識讀或資訊判讀週次"
  | "A401", "1010" => some "資訊科技週次"
  | "A501", "1010" => some "在地關懷週次"
  | _, _ => none

/-- The fixed theme processing order of the CSV exports. -/
def themeOrderList : List String := ["A101", "A301", "A401", "A501", "A601"]

/-- The per-theme indicator column naming convention of
export_course_entries_to_csv. -/
def columnNameFor (tc subName subCode : String) : String :=
  if tc == "A101" then (sdgsNumberMap subCode).getD subName
  else if tc == "A401" then
    (if subName == "資訊科技" then "資訊科技(UCAN)" else "UCAN" ++ subName)
  else if tc == "A501" then subName ++ "(USR)"
  else if tc == "A601" then "STEAM" ++ subName
  else subName ++ "(主題:指標主題)"

/-- Week column name: the fixed lookup table, defaulting to the sub-theme name
followed by 週次. -/
def weekColName (tc subCode subName : String) : String :=
  (weekNameMap tc subCode).getD (subName ++ "週次")

/-- One cell marker of the dynamic column structure (the theme_columns
entries of export_course_entries_to_csv). -/
inductive ColInfo where
  | mostRelevantCode : ColInfo
  | mostRelevantName : ColInfo
  | indicator : String → ColInfo
  | week : String → ColInfo
deriving DecidableEq, Repr

/-- Column contribution of one sub-theme inside one theme: enabled sub-themes
add an indicator column, and for week-tracking themes a week column that joins
csv_columns only when the name is not already present, while theme_columns
always receives the week marker. -/
def addSubColumns (ts : ThemeSettingView) (acc : List String × List ColInfo)
    (su : SubThemeStatusView) : List String × List ColInfo :=
  if !su.enabled then acc
  else
    let cname := columnNameFor ts.theme_code su.sub_theme_name su.sub_theme_code
    let cols := acc.1 ++ [cname]
    let infos := acc.2 ++ [ColInfo.indicator su.sub_theme_code]
    if ts.fill_in_week_enabled then
      let w := weekColName ts.theme_code su.sub_theme_code su.sub_theme_name
      (if cols.contains w then cols else cols ++ [w], infos ++ [ColInfo.week su.sub_theme_code])
    else (cols, infos)

/-- The dynamic column construction of export_course_entries_to_csv: base
columns, then per theme in the fixed order the most-relevant code/name pair
when the flag is on, followed by the per-sub-theme columns. -/
def buildColumns (settings : List ThemeSettingView) :
    List String × List (String × List ColInfo) :=
  themeOrderList.foldl (fun acc tc =>
    match settings.find? (fun ts => ts.theme_code == tc) with
    | none => acc
    | some ts =>
      let start : List String × List ColInfo :=
        if ts.select_most_relevant then
          (acc.1 ++ [ts.theme_name ++ "最相關子主題代碼", ts.theme_name ++ "最相關子主題名稱"],
           [ColInfo.mostRelevantCode, ColInfo.mostRelevantName])
        else (acc.1, [])
      let built := ts.sub_themes.foldl (addSubColumns ts) start
      (built.1, acc.2 ++ [(tc, built.2)]))
    (["學年期", "OPMS_COURSE_NO", "PS_CLASS_NBR", "課程名稱"], [])

/-- One row of
CourseEntriesDAO.get_all_course_entries_by_academic_year_term (entry joined
with the catalog and the external COFSUBJ name). -/
structure ExportEntry where
  subj_no : String
  ps_class_nbr : String
  sub_theme_code : String
  theme_code : String
  sub_theme_name : String
  indicator_value : String
  week_numbers : Option (List Nat)
  is_most_relevant : Bool
  course_chinese_name : String
deriving DecidableEq, Repr

/-- COALESCE(cb.subj_chn_name, '') from the LEFT JOIN on SCHOOL.COFSUBJ. -/
def cofsubjName (db : Db) (subj : String) : String :=
  ((db.cofsubj.find? (fun p => p.1 == subj)).map (fun p => p.2)).getD ""

/-- CourseEntriesDAO.get_all_course_entries_by_academic_year_term: all entries
of the year-term joined with the catalog, ORDER BY theme_code,
sub_theme_code. -/
def get_all_course_entries_by_academic_year_term (db : Db) (y t : Nat) :
    List ExportEntry :=
  stableSortBy (fun a b => strLt a.theme_code b.theme_code ||
      (a.theme_code == b.theme_code && strLt a.sub_theme_code b.sub_theme_code))
    ((db.courseEntries.filter (fun e => e.academic_year == y &&
      e.academic_term == t)).filterMap (fun e =>
        (catalogJoin db e.sub_theme_id).map (fun p =>
          ⟨e.subj_no, e.ps_class_nbr, p.1.sub_theme_code, p.2.theme_code,
           p.1.sub_theme_name, e.indicator_value, e.week_numbers,
           e.is_most_relevant, cofsubjName db e.subj_no⟩)))

/-- The per-course accumulator of the export (one value of courses_dict). -/
structure CourseGroup where
  subj_no : String
  ps_class_nbr : String
  course_chinese_name : String
  entries : List (String × ExportEntry)
deriving DecidableEq, Repr

/-- entries_by_sub_theme dict assignment: replace in place on an existing
sub_theme_code key, append otherwise. -/
def upsertEntryByCode (e : ExportEntry) : List (String × ExportEntry) →
    List (String × ExportEntry)
  | [] => [(e.sub_theme_code, e)]
  | (k, v) :: rest =>
    if k == e.sub_theme_code then (k, e) :: rest
    else (k, v) :: upsertEntryByCode e rest

/-- Folding one export row into its course group: the Chinese name is only
overwritten when truthy, the entry is keyed by sub_theme_code. -/
def addEntryToGroup (g : CourseGroup) (e : ExportEntry) : CourseGroup :=
  { g with
    course_chinese_name :=
      if e.course_chinese_name == "" then g.course_chinese_name
      else e.course_chinese_name,
    entries := upsertEntryByCode e g.entries }

/-- courses_dict assignment keyed by (subj_no, ps_class_nbr). -/
def upsertGroup (l : List ((String × String) × CourseGroup)) (e : ExportEntry) :
    List ((String × String) × CourseGroup) :=
  match l with
  | [] => [((e.subj_no, e.ps_class_nbr),
      addEntryToGroup ⟨e.subj_no, e.ps_class_nbr, "", []⟩ e)]
  | (k, g) :: rest =>
    if k == (e.subj_no, e.ps_class_nbr) then (k, addEntryToGroup g e) :: rest
    else (k, g) :: upsertGroup rest e

/-- Grouping of the export rows into courses_dict. -/
def buildCourseGroups (l : List ExportEntry) : List ((String × String) × CourseGroup) :=
  l.foldl upsertGroup []

/-- The first is_most_relevant entry of one theme among a course's collected
entries (dict .values() iteration order). -/
def mostRelevantFor (g : CourseGroup) (tc : String) : Option ExportEntry :=
  (g.entries.map (fun p => p.2)).find? (fun e => e.theme_code == tc && e.is_most_relevant)

/-- Assoc lookup in entries_by_sub_theme. -/
def lookupEntry (l : List (String × ExportEntry)) (c : String) : Option ExportEntry :=
  ((l.find? (fun p => p.1 == c)).map (fun p => p.2))

/-- One data row of the simple CSV export: base cells then, per theme in
order, one cell per ColInfo marker (including one week cell per week-tracked
sub-theme, whether or not its column name was deduplicated in the header). -/
def rowFor (y t : Nat) (themeCols : List (String × List ColInfo)) (g : CourseGroup) :
    List String :=
  [toString y ++ toString t, g.subj_no, g.ps_class_nbr, g.course_chinese_name] ++
  themeCols.flatMap (fun tcinfos =>
    let mr := mostRelevantFor g tcinfos.1
    tcinfos.2.map (fun ci =>
      match ci with
      | ColInfo.mostRelevantCode => ((mr.map (fun e => e.sub_theme_code)).getD "")
      | ColInfo.mostRelevantName => ((mr.map (fun e => e.sub_theme_name)).getD "")
      | ColInfo.indicator c =>
          ((lookupEntry g.entries c).map (fun e => e.indicator_value)).getD ""
      | ColInfo.week c =>
          match lookupEntry g.entries c with
          | some e =>
            (match e.week_numbers with
             | some l => String.intercalate "," (l.map toString)
             | none => "")
          | none => ""))

/-- The header-plus-rows table of
SchoolYearBusiness.export_course_entries_to_csv: 404 without theme settings,
otherwise the dynamic header and one row per course sorted by
(subj_no, ps_class_nbr). -/
def exportCourseEntriesTable (db : Db) (y t : Nat) :
    Except ApiError (List (List String)) :=
  let settings := get_school_year_theme_settings_by_year db y t
  if settings.isEmpty then .error (.notFound "沒有找到主題設定")
  else
    let built := buildColumns settings
    let groups := stableSortBy (fun a b => strLt a.1.1 b.1.1 ||
        (a.1.1 == b.1.1 && strLt a.1.2 b.1.2))
      (buildCourseGroups (get_all_course_entries_by_academic_year_term db y t))
    .ok (built.1 :: groups.map (fun p => rowFor y t built.2 p.2))

/-- csv.QUOTE_MINIMAL field rendering: quote only when the field holds the
delimiter, the quote character or a line break, doubling inner quotes. -/
def csvField (s : String) : String :=
  if s.any (fun c => c == ',' || c == '"' || c == '\n' || c == '\r') then
    "\"" ++ String.join (s.toList.map (fun c =>
      if c == '"' then "\"\"" else String.singleton c)) ++ "\""
  else s

/-- csv.writer output with lineterminator set to a bare line feed. -/
def csvRender (rows : List (List String)) : String :=
  String.join (rows.map (fun r => String.intercalate "," (r.map csvField) ++ "\n"))

/-- SchoolYearBusiness.export_course_entries_to_csv: the rendered table with
the UTF-8 byte-order-mark prepended. -/
def export_course_entries_to_csv (db : Db) (y t : Nat) : Except ApiError String :=
  match exportCourseEntriesTable db y t with
  | .error e => .error e
  | .ok rows => .ok ("\uFEFF" ++ csvRender rows)

/-! Generic list lemmas about the sorting and folding helpers. -/

theorem mem_insortBy (lt : α → α → Bool) (x y : α) (l : List α) :
    y ∈ insortBy lt x l ↔ y = x ∨ y ∈ l := by
  induction l with
  | nil => simp [insortBy]
  | cons a as ih =>
    simp only [insortBy]
    by_cases h : lt x a
    · simp [h, List.mem_cons]
    · simp only [h, if_neg, List.mem_cons, ih, Bool.false_eq_true, if_false]
      tauto

theorem length_insortBy (lt : α → α → Bool) (x : α) (l : List α) :
    (insortBy lt x l).length = l.length + 1 := by
  induction l with
  | nil => simp [insortBy]
  | cons a as ih =>
    simp only [insortBy]
    by_cases h : lt x a
    · simp [h]
    · simp [h, ih]

theorem mem_foldl_insort (lt : α → α → Bool) (y : α) :
    ∀ (l acc : List α), y ∈ l.foldl (fun a x => insortBy lt x a) acc ↔ y ∈ acc ∨ y ∈ l := by
  intro l
  induction l with
  | nil => simp
  | cons a as ih =>
    intro acc
    simp only [List.foldl_cons, ih, mem_insortBy, List.mem_cons]
    tauto

theorem length_foldl_insort (lt : α → α → Bool) :
    ∀ (l acc : List α), (l.foldl (fun a x => insortBy lt x a) acc).length =
      acc.length + l.length := by
  intro l
  induction l with
  | nil => simp
  | cons a as ih =>
    intro acc
    rw [List.foldl_cons, ih, length_insortBy, List.length_cons]
    omega

theorem mem_stableSortBy (lt : α → α → Bool) (y : α) (l : List α) :
    y ∈ stableSortBy lt l ↔ y ∈ l := by
  simp [stableSortBy, mem_foldl_insort]

theorem length_stableSortBy (lt : α → α → Bool) (l : List α) :
    (stableSortBy lt l).length = l.length := by
  simp [stableSortBy, length_foldl_insort]

/-! Claim C8: partial-update semantics of updateEntryById. -/

/-- A course entry carrying stored week numbers, for exercising the update. -/
def entryC8 : CourseEntry := ⟨1, "CS101", "0001", 113, 1, 11, "3", some [1, 2], false⟩

/-- State with one theme, one sub-theme and the single entry above. -/
def dbC8 : Db :=
  ⟨[⟨1, "A101", "SDGs", "SDGs"⟩], [⟨11, 1, "01", "消除貧窮"⟩], [], [], [entryC8], [], 100⟩

/-- C8 counterexample: updating an entry by id while omitting week_numbers
does not retain the stored value; the stored weeks [1, 2] are cleared to NULL
by the unconditional week_numbers assignment in update_course_entry_by_id. -/
theorem C8_counterexample_week_numbers_cleared :
    entryC8.week_numbers = some [1, 2] ∧
    ((update_course_entry_by_id dbC8 1 "3" none none).2.courseEntries.map
      (fun e => e.week_numbers)) = [none] :=
  ⟨rfl, rfl⟩

/-- C8 amended: update_course_entry_by_id always writes indicator_value and
always writes week_numbers (clearing it to NULL when the argument is omitted
or empty); an omitted is_most_relevant retains its stored value, and rows with
other ids are untouched. -/
theorem C8_amended_partial_update (db : Db) (eid : Nat) (ind : String)
    (w : Option (List Nat)) (e : CourseEntry)
    (hfind : db.courseEntries.find? (fun x => x.id == eid) = some e) :
    (update_course_entry_by_id db eid ind w none).2.courseEntries.find?
        (fun x => x.id == eid) =
      some { e with indicator_value := ind, week_numbers := normWeeks w } ∧
    ∀ x ∈ db.courseEntries, x.id ≠ eid →
      x ∈ (update_course_entry_by_id db eid ind w none).2.courseEntries := by
  have hpe : (e.id == eid) = true := by
    have h := List.find?_some hfind
    simpa using h
  constructor
  · show ((db.courseEntries.map (fun x =>
      if x.id == eid then updateEntryRow ind w none x else x)).find?
        (fun x => x.id == eid)) = _
    rw [List.find?_map]
    have hcomp : ((fun x : CourseEntry => x.id == eid) ∘ (fun x =>
        if x.id == eid then updateEntryRow ind w none x else x)) =
        (fun x : CourseEntry => x.id == eid) := by
      funext x
      by_cases hx : (x.id == eid) = true
      · have hx' : x.id = eid := by simpa using hx
        simp [hx', updateEntryRow]
      · simp [Function.comp, hx]
    rw [hcomp, hfind]
    have he : e.id = eid := by simpa using hpe
    simp [updateEntryRow, he]
  · intro x hx hne
    have hfx : (x.id == eid) = false := by simp [hne]
    have : (if x.id == eid then updateEntryRow ind w none x else x) ∈
        (update_course_entry_by_id db eid ind w none).2.courseEntries :=
      List.mem_map_of_mem _ hx
    simpa [hfx] using this

/-- C8 amended witness at a concrete state. -/
theorem C8_amended_witness :
    (update_course_entry_by_id dbC8 1 "5" (some [3]) none).2.courseEntries.find?
        (fun x => x.id == 1) =
      some { entryC8 with indicator_value := "5", week_numbers := normWeeks (some [3]) } ∧
    ∀ x ∈ dbC8.courseEntries, x.id ≠ 1 →
      x ∈ (update_course_entry_by_id dbC8 1 "5" (some [3]) none).2.courseEntries :=
  C8_amended_partial_update dbC8 1 "5" (some [3]) entryC8 rfl

/-- UPDATE WHERE id on course entries found by id: the mapped list still
yields the row (now updated) under the same id search. -/
theorem find?_entry_update (l : List CourseEntry) (eid : Nat) (ind : String)
    (w : Option (List Nat)) (isMR : Option Bool) (e : CourseEntry)
    (hfind : l.find? (fun x => x.id == eid) = some e) :
    (l.map (fun x => if x.id == eid then updateEntryRow ind w isMR x else x)).find?
      (fun x => x.id == eid) = some (updateEntryRow ind w isMR e) := by
  have hpe : (e.id == eid) = true := by
    have h := List.find?_some hfind
    simpa using h
  rw [List.find?_map]
  have hcomp : ((fun x : CourseEntry => x.id == eid) ∘ (fun x =>
      if x.id == eid then updateEntryRow ind w isMR x else x)) =
      (fun x : CourseEntry => x.id == eid) := by
    funext x
    by_cases hx : (x.id == eid) = true
    · have hx' : x.id = eid := by simpa using hx
      simp [hx', updateEntryRow]
    · simp [Function.comp, hx]
  rw [hcomp, hfind]
  have he : e.id = eid := by simpa using hpe
  simp [he]

/-- UPDATE enabled WHERE id on sub-theme settings found by id. -/
theorem find?_subsetting_update (l : List SubThemeSetting) (sid : Nat) (en : Bool)
    (s0 : SubThemeSetting) (hfind : l.find? (fun s => s.id == sid) = some s0) :
    (l.map (fun s => if s.id == sid then { s with enabled := en } else s)).find?
      (fun s => s.id == sid) = some { s0 with enabled := en } := by
  have hpe : (s0.id == sid) = true := by
    have h := List.find?_some hfind
    simpa using h
  rw [List.find?_map]
  have hcomp : ((fun s : SubThemeSetting => s.id == sid) ∘ (fun s =>
      if s.id == sid then { s with enabled := en } else s)) =
      (fun s : SubThemeSetting => s.id == sid) := by
    funext s
    by_cases hs : (s.id == sid) = true
    · have hs' : s.id = sid := by simpa using hs
      simp [hs']
    · simp [Function.comp, hs]
  rw [hcomp, hfind]
  have hs0 : s0.id = sid := by simpa using hpe
  simp [hs0]

/-- Searching a list by the key of one of its members hits that member when
the keys are all distinct. -/
theorem find?_key_self (f : α → Nat) :
    ∀ (l : List α), (l.map f).Nodup → ∀ a ∈ l, l.find? (fun x => f x == f a) = some a := by
  intro l
  induction l with
  | nil => simp
  | cons b bs ih =>
    intro hnd a ha
    rw [List.map_cons, List.nodup_cons] at hnd
    rcases List.mem_cons.mp ha with h | h
    · subst h
      simp [List.find?_cons]
    · have hne : (f b == f a) = false := by
        have hmem : f a ∈ bs.map f := List.mem_map_of_mem f h
        have hbne : f b ≠ f a := fun he => hnd.1 (he ▸ hmem)
        simpa using hbne
      rw [List.find?_cons, hne]
      exact ih hnd.2 a h

/-! Claim C6: the most-relevant singleton guard on the by-id update path. -/

/-- Entry already holding is_most_relevant under theme A101. -/
def entryC6a : CourseEntry := ⟨101, "CS101", "0001", 113, 1, 11, "3", none, true⟩

/-- Second entry of the same course under another sub-theme of A101. -/
def entryC6b : CourseEntry := ⟨102, "CS101", "0001", 113, 1, 12, "2", none, false⟩

/-- State with one theme, two sub-themes and the two entries above. -/
def dbC6 : Db :=
  ⟨[⟨1, "A101", "SDGs", "SDGs"⟩],
   [⟨11, 1, "01", "消除貧窮"⟩, ⟨12, 1, "02", "消除飢餓"⟩],
   [], [], [entryC6a, entryC6b], [], 200⟩

/-- C6 counterexample: setting is_most_relevant on the second sub-theme while
a sibling already holds it fails with HTTP 400 BadRequest (leaving the state
unchanged), not with a 409 Conflict-class error as the claim states. -/
theorem C6_counterexample_badRequest_not_conflict :
    (business_update_course_entry_by_id dbC6 102 "2" none (some true)).1 =
      .error (.badRequest "該課程在主題下已有其他最相關的 sub_theme") ∧
    (business_update_course_entry_by_id dbC6 102 "2" none (some true)).2 = dbC6 ∧
    ApiError.status (.badRequest "該課程在主題下已有其他最相關的 sub_theme") = 400 :=
  ⟨rfl, rfl, rfl⟩

/-- C6 amended: on the by-id update path, setting is_most_relevant=true on an
entry whose theme already holds another most-relevant entry for the same
course and year-term fails with a BadRequest (HTTP 400) domain error and
leaves the database unchanged; when no such sibling exists the update is
accepted and stores is_most_relevant=true. -/
theorem C6_amended_most_relevant_guard (db : Db) (eid : Nat) (ind : String)
    (w : Option (List Nat)) (v : EntryView)
    (hget : get_course_entry_by_id db eid = some v) :
    (check_most_relevant_validation db v.row.subj_no v.row.ps_class_nbr
        v.row.academic_year v.row.academic_term v.theme_code (some v.sub_theme_code) = true →
      business_update_course_entry_by_id db eid ind w (some true) =
        (.error (.badRequest "該課程在主題下已有其他最相關的 sub_theme"), db)) ∧
    (check_most_relevant_validation db v.row.subj_no v.row.ps_class_nbr
        v.row.academic_year v.row.academic_term v.theme_code (some v.sub_theme_code) = false →
      (∃ v', (business_update_course_entry_by_id db eid ind w (some true)).1 = .ok v') ∧
      (business_update_course_entry_by_id db eid ind w (some true)).2.courseEntries.find?
          (fun x => x.id == eid) =
        some { v.row with
               indicator_value := ind,
               week_numbers := normWeeks w,
               is_most_relevant := true }) := by
  obtain ⟨e, hfind, hview⟩ := Option.bind_eq_some.mp hget
  have hrow : v.row = e := by
    unfold entryViewOf at hview
    obtain ⟨p, hp, hv⟩ := Option.map_eq_some'.mp hview
    rw [← hv]
  constructor
  · intro hc
    unfold business_update_course_entry_by_id
    rw [hget]
    simp [hc]
  · intro hc
    have hupd := find?_entry_update db.courseEntries eid ind w (some true) e hfind
    have hjoin : (catalogJoin db e.sub_theme_id).isSome := by
      unfold entryViewOf at hview
      obtain ⟨p, hp, _⟩ := Option.map_eq_some'.mp hview
      simp [hp]
    obtain ⟨p, hp⟩ := Option.isSome_iff_exists.mp hjoin
    have hget' : get_course_entry_by_id
        { db with courseEntries := db.courseEntries.map (fun x =>
            if x.id == eid then updateEntryRow ind w (some true) x else x) } eid =
        some ⟨updateEntryRow ind w (some true) e, p.1.sub_theme_code,
          p.1.sub_theme_name, p.2.theme_code⟩ := by
      unfold get_course_entry_by_id
      rw [hupd]
      show entryViewOf _ (updateEntryRow ind w (some true) e) = _
      unfold entryViewOf
      rw [show catalogJoin { db with courseEntries := db.courseEntries.map (fun x =>
            if x.id == eid then updateEntryRow ind w (some true) x else x) }
          (updateEntryRow ind w (some true) e).sub_theme_id = some p from hp]
      rfl
    unfold business_update_course_entry_by_id update_course_entry_by_id
    rw [hget]
    simp only [hc, Bool.and_false, Bool.false_eq_true, if_false]
    rw [hget']
    refine ⟨⟨_, rfl⟩, ?_⟩
    show (db.courseEntries.map (fun x =>
        if x.id == eid then updateEntryRow ind w (some true) x else x)).find?
        (fun x => x.id == eid) = _
    rw [hupd, hrow]
    rfl

/-- C6 amended witness: accepting the first most-relevant mark on entry 101 of
the concrete state. -/
theorem C6_amended_witness :
    (∃ v', (business_update_course_entry_by_id dbC6 101 "3" none (some true)).1 = .ok v') ∧
    (business_update_course_entry_by_id dbC6 101 "3" none (some true)).2.courseEntries.find?
        (fun x => x.id == 101) =
      some { entryC6a with
             indicator_value := "3",
             week_numbers := normWeeks none,
             is_most_relevant := true } :=
  (C6_amended_most_relevant_guard dbC6 101 "3" none
    ⟨entryC6a, "01", "消除貧窮", "A101"⟩ rfl).2 rfl

/-! Claim C7: two-path upsert of updateSubThemeSetting. -/

/-- State holding an orphan sub-theme-setting row: its sub_theme_id points at
a catalog row that no longer exists (sub-theme deletion is only guarded
against course entries, not against settings). -/
def dbC7 : Db := ⟨[], [], [], [⟨5, 113, 1, 9, false⟩], [], [], 50⟩

/-- C7 counterexample: a sub-theme-setting row with the requested id exists,
yet the update resolves nothing and the business layer fails NotFound, because
the by-id read inner-joins the catalog and the second interpretation does not
match either. -/
theorem C7_counterexample_orphan_setting :
    (∃ s ∈ dbC7.subThemeSettings, s.id = 5) ∧
    update_school_year_sub_theme_setting dbC7 5 true (some 113) (some 1) = (none, dbC7) ∧
    (business_update_sub_theme_setting dbC7 5 true (some 113) (some 1)).1 =
      .error (.notFound "找不到設定ID 5") :=
  ⟨⟨⟨5, 113, 1, 9, false⟩, by decide, rfl⟩, rfl, rfl⟩

/-- C7 amended: with year and term supplied, on a state whose setting ids are
distinct and below the fresh-id counter, updateSubThemeSetting has the two-path
upsert behaviour for every id whose relevant catalog joins resolve: a setting
row with that id (and a live catalog sub-theme) is updated in place; otherwise
a live sub_theme_id updates the setting for that (year, term, sub_theme_id)
when present and inserts a new row when absent; and the NotFound outcome
occurs exactly when the by-id read resolves nothing and the id is not a live
catalog sub-theme. -/
theorem C7_amended_two_path_upsert (db : Db) (sid : Nat) (en : Bool) (y t : Nat)
    (hfresh : ∀ s ∈ db.subThemeSettings, s.id ≠ db.nextId)
    (hnodup : (db.subThemeSettings.map (fun s => s.id)).Nodup) :
    (∀ s0, db.subThemeSettings.find? (fun s => s.id == sid) = some s0 →
      (catalogJoin db s0.sub_theme_id).isSome →
      (update_school_year_sub_theme_setting db sid en (some y) (some t)).2 =
          updateSubSettingRow db sid en ∧
      ∃ v, (update_school_year_sub_theme_setting db sid en (some y) (some t)).1 = some v ∧
        v.id = s0.id ∧ v.enabled = en) ∧
    (db.subThemeSettings.find? (fun s => s.id == sid) = none →
      (catalogJoin db sid).isSome →
      (∀ s0, db.subThemeSettings.find? (fun s => s.academic_year == y &&
          s.academic_term == t && s.sub_theme_id == sid) = some s0 →
        (update_school_year_sub_theme_setting db sid en (some y) (some t)).2 =
            updateSubSettingRow db s0.id en ∧
        ∃ v, (update_school_year_sub_theme_setting db sid en (some y) (some t)).1 = some v ∧
          v.sub_theme_id = sid ∧ v.enabled = en) ∧
      (db.subThemeSettings.find? (fun s => s.academic_year == y &&
          s.academic_term == t && s.sub_theme_id == sid) = none →
        (update_school_year_sub_theme_setting db sid en (some y) (some t)).2.subThemeSettings =
            db.subThemeSettings ++ [⟨db.nextId, y, t, sid, en⟩] ∧
        ∃ v, (update_school_year_sub_theme_setting db sid en (some y) (some t)).1 = some v ∧
          v.sub_theme_id = sid ∧ v.enabled = en ∧ v.academic_year = y ∧ v.academic_term = t)) ∧
    ((update_school_year_sub_theme_setting db sid en (some y) (some t)).1 = none ↔
      (get_school_year_sub_theme_setting_by_id db sid = none ∧ catalogJoin db sid = none)) := by
  have hA : ∀ v0, get_school_year_sub_theme_setting_by_id db sid = some v0 →
      update_school_year_sub_theme_setting db sid en (some y) (some t) =
        (some { v0 with enabled := en }, updateSubSettingRow db sid en) := by
    intro v0 hgid
    obtain ⟨s0, hfind, hmap⟩ := Option.bind_eq_some.mp hgid
    obtain ⟨p, hp, hv0⟩ := Option.map_eq_some'.mp hmap
    have hupd := find?_subsetting_update db.subThemeSettings sid en s0 hfind
    have hgid' : get_school_year_sub_theme_setting_by_id (updateSubSettingRow db sid en) sid =
        some { v0 with enabled := en } := by
      unfold get_school_year_sub_theme_setting_by_id updateSubSettingRow
      rw [hupd]
      show (catalogJoin (updateSubSettingRow db sid en) s0.sub_theme_id).map _ = _
      rw [show catalogJoin (updateSubSettingRow db sid en) s0.sub_theme_id = some p from hp]
      rw [← hv0]
      rfl
    unfold update_school_year_sub_theme_setting
    rw [hgid]
    simp only
    rw [hgid']
  have hB2a : get_school_year_sub_theme_setting_by_id db sid = none →
      ∀ p, catalogJoin db sid = some p →
      ∀ s0, db.subThemeSettings.find? (fun s => s.academic_year == y &&
          s.academic_term == t && s.sub_theme_id == sid) = some s0 →
      update_school_year_sub_theme_setting db sid en (some y) (some t) =
        (some ⟨s0.id, s0.academic_year, s0.academic_term, s0.sub_theme_id,
          p.2.theme_code, p.1.sub_theme_code, p.1.sub_theme_name, en⟩,
         updateSubSettingRow db s0.id en) := by
    intro hgid p hp s0 hkey
    have hs0mem := List.mem_of_find?_eq_some hkey
    have hkeyp := List.find?_some hkey
    have hsid : s0.sub_theme_id = sid := by
      simp only [Bool.and_eq_true, beq_iff_eq] at hkeyp
      exact hkeyp.2
    have hfind0 : db.subThemeSettings.find? (fun s => s.id == s0.id) = some s0 :=
      find?_key_self (fun s : SubThemeSetting => s.id) db.subThemeSettings hnodup s0 hs0mem
    have hupd := find?_subsetting_update db.subThemeSettings s0.id en s0 hfind0
    have hgid' : get_school_year_sub_theme_setting_by_id
        (updateSubSettingRow db s0.id en) s0.id =
        some ⟨s0.id, s0.academic_year, s0.academic_term, s0.sub_theme_id,
          p.2.theme_code, p.1.sub_theme_code, p.1.sub_theme_name, en⟩ := by
      unfold get_school_year_sub_theme_setting_by_id updateSubSettingRow
      rw [hupd]
      show (catalogJoin (updateSubSettingRow db s0.id en) s0.sub_theme_id).map _ = _
      rw [show catalogJoin (updateSubSettingRow db s0.id en) s0.sub_theme_id =
          some p from hsid ▸ hp]
      rfl
    unfold update_school_year_sub_theme_setting
    rw [hgid]
    simp only
    rw [hp, hkey]
    simp only
    rw [hgid']
  have hB2b : get_school_year_sub_theme_setting_by_id db sid = none →
      ∀ p, catalogJoin db sid = some p →
      db.subThemeSettings.find? (fun s => s.academic_year == y &&
          s.academic_term == t && s.sub_theme_id == sid) = none →
      update_school_year_sub_theme_setting db sid en (some y) (some t) =
        (some ⟨db.nextId, y, t, sid, p.2.theme_code, p.1.sub_theme_code,
          p.1.sub_theme_name, en⟩,
         { db with
           subThemeSettings := db.subThemeSettings ++ [⟨db.nextId, y, t, sid, en⟩],
           nextId := db.nextId + 1 }) := by
    intro hgid p hp hkeynone
    have hnewfind : (db.subThemeSettings ++
        [(⟨db.nextId, y, t, sid, en⟩ : SubThemeSetting)]).find?
        (fun s => s.id == db.nextId) = some ⟨db.nextId, y, t, sid, en⟩ := by
      rw [List.find?_append]
      have h1 : db.subThemeSettings.find? (fun s => s.id == db.nextId) = none := by
        rw [List.find?_eq_none]
        intro s hs
        simpa using hfresh s hs
      rw [h1]
      simp [List.find?_cons]
    have hgid' : get_school_year_sub_theme_setting_by_id
        { db with
          subThemeSettings := db.subThemeSettings ++
            [(⟨db.nextId, y, t, sid, en⟩ : SubThemeSetting)],
          nextId := db.nextId + 1 } db.nextId =
        some ⟨db.nextId, y, t, sid, p.2.theme_code, p.1.sub_theme_code,
          p.1.sub_theme_name, en⟩ := by
      unfold get_school_year_sub_theme_setting_by_id
      rw [hnewfind]
      show (catalogJoin _ sid).map _ = _
      rw [show catalogJoin { db with
          subThemeSettings := db.subThemeSettings ++
            [(⟨db.nextId, y, t, sid, en⟩ : SubThemeSetting)],
          nextId := db.nextId + 1 } sid = some p from hp]
      rfl
    unfold update_school_year_sub_theme_setting
    rw [hgid]
    simp only
    rw [hp, hkeynone]
    simp only
    rw [hgid']
  have hB1 : get_school_year_sub_theme_setting_by_id db sid = none →
      catalogJoin db sid = none →
      update_school_year_sub_theme_setting db sid en (some y) (some t) = (none, db) := by
    intro hgid hj
    unfold update_school_year_sub_theme_setting
    rw [hgid]
    simp only
    rw [hj]
  refine ⟨?_, ?_, ?_⟩
  · intro s0 hfind hjoin
    obtain ⟨p, hp⟩ := Option.isSome_iff_exists.mp hjoin
    have hgid : get_school_year_sub_theme_setting_by_id db sid =
        some ⟨s0.id, s0.academic_year, s0.academic_term, s0.sub_theme_id,
          p.2.theme_code, p.1.sub_theme_code, p.1.sub_theme_name, s0.enabled⟩ := by
      unfold get_school_year_sub_theme_setting_by_id
      rw [hfind]
      show (catalogJoin db s0.sub_theme_id).map _ = _
      rw [hp]
      rfl
    have h := hA _ hgid
    rw [h]
    exact ⟨rfl, ⟨_, rfl, rfl, rfl⟩⟩
  · intro hnone hjoin
    have hgid : get_school_year_sub_theme_setting_by_id db sid = none := by
      unfold get_school_year_sub_theme_setting_by_id
      rw [hnone]
      rfl
    obtain ⟨p, hp⟩ := Option.isSome_iff_exists.mp hjoin
    constructor
    · intro s0 hkey
      have h := hB2a hgid p hp s0 hkey
      rw [h]
      have hkeyp := List.find?_some hkey
      have hsid : s0.sub_theme_id = sid := by
        simp only [Bool.and_eq_true, beq_iff_eq] at hkeyp
        exact hkeyp.2
      exact ⟨rfl, ⟨_, rfl, hsid, rfl⟩⟩
    · intro hkeynone
      have h := hB2b hgid p hp hkeynone
      rw [h]
      exact ⟨rfl, ⟨_, rfl, rfl, rfl, rfl, rfl⟩⟩
  · constructor
    · intro hres
      cases hgid : get_school_year_sub_theme_setting_by_id db sid with
      | some v0 =>
        rw [hA v0 hgid] at hres
        exact Option.noConfusion hres
      | none =>
        refine ⟨rfl, ?_⟩
        cases hj : catalogJoin db sid with
        | some p =>
          exfalso
          cases hkey : db.subThemeSettings.find? (fun s => s.academic_year == y &&
              s.academic_term == t && s.sub_theme_id == sid) with
          | some s0 =>
            rw [hB2a hgid p hj s0 hkey] at hres
            exact Option.noConfusion hres
          | none =>
            rw [hB2b hgid p hj hkey] at hres
            exact Option.noConfusion hres
        | none => rfl
    · intro hand
      rw [hB1 hand.1 hand.2]

/-- Catalog for the C7 witness: one theme with one sub-theme and no setting
rows yet. -/
def dbW7 : Db := ⟨[⟨1, "A101", "SDGs", "SDGs"⟩], [⟨9, 1, "01", "消除貧窮"⟩], [], [], [], [], 60⟩

/-- C7 amended witness: the auto-create fallback path at a concrete state. -/
theorem C7_amended_witness :
    (update_school_year_sub_theme_setting dbW7 9 true (some 113) (some 1)).2.subThemeSettings =
      dbW7.subThemeSettings ++ [⟨dbW7.nextId, 113, 1, 9, true⟩] ∧
    ∃ v, (update_school_year_sub_theme_setting dbW7 9 true (some 113) (some 1)).1 = some v ∧
      v.sub_theme_id = 9 ∧ v.enabled = true ∧ v.academic_year = 113 ∧ v.academic_term = 1 :=
  ((C7_amended_two_path_upsert dbW7 9 true 113 1 (by decide) (by decide)).2.1
    (by decide) (by decide)).2 (by decide)

/-! Claim C9: partial-success semantics of batch entry creation. -/

/-- Empty state: no settings at all, so every batch item fails its enabled
check. -/
def dbC9 : Db := ⟨[], [], [], [], [], [], 0⟩

/-- A batch item whose sub_theme_code has no enabled setting. -/
def batchBad9 : BatchEntry := ⟨"CS101", "0001", 113, 1, "02", "3", none, false⟩

/-- C9 counterexample: when every item of the batch fails, the DAO returns the
empty success list but the business layer does not return it - it raises a 400
BadRequest, so per-item failures do surface to the caller as an error. -/
theorem C9_counterexample_all_failures_yield_400 :
    create_course_entries_batch dbC9 [batchBad9] = ([], dbC9) ∧
    business_create_course_entries_batch dbC9 [batchBad9] =
      .error (.badRequest "批量創建課程填寫記錄失敗") :=
  ⟨rfl, rfl⟩

/-- C9 amended: batch creation is sequential; a failing item is skipped
leaving the state unchanged for the remaining items, a succeeding item
contributes its result, and the business call returns exactly the non-empty
list of successes - but when no item succeeds it fails with 400 BadRequest
instead of returning the empty list. -/
theorem C9_amended_batch_partial_success :
    (∀ (db : Db) (e : BatchEntry) (rest : List BatchEntry) (err : DbErr),
      create_course_entry db e.subj_no e.ps_class_nbr e.academic_year e.academic_term
        e.sub_theme_code e.indicator_value e.week_numbers e.is_most_relevant = .error err →
      create_course_entries_batch db (e :: rest) = create_course_entries_batch db rest) ∧
    (∀ (db : Db) (e : BatchEntry) (rest : List BatchEntry) (v : EntryView) (db' : Db),
      create_course_entry db e.subj_no e.ps_class_nbr e.academic_year e.academic_term
        e.sub_theme_code e.indicator_value e.week_numbers e.is_most_relevant =
        .ok (some v, db') →
      create_course_entries_batch db (e :: rest) =
        (v :: (create_course_entries_batch db' rest).1,
         (create_course_entries_batch db' rest).2)) ∧
    (∀ (db : Db) (entries : List BatchEntry) (r : List EntryView × Db),
      business_create_course_entries_batch db entries = .ok r →
      r = create_course_entries_batch db entries ∧ r.1 ≠ []) ∧
    (∀ (db : Db) (entries : List BatchEntry),
      (create_course_entries_batch db entries).1 = [] →
      business_create_course_entries_batch db entries =
        .error (.badRequest "批量創建課程填寫記錄失敗")) := by
  refine ⟨?_, ?_, ?_, ?_⟩
  · intro db e rest err h
    simp [create_course_entries_batch, h]
  · intro db e rest v db' h
    simp [create_course_entries_batch, h]
  · intro db entries r hok
    unfold business_create_course_entries_batch at hok
    by_cases hemp : (create_course_entries_batch db entries).1.isEmpty
    · rw [if_pos hemp] at hok
      exact Except.noConfusion hok
    · rw [if_neg hemp] at hok
      have hr : r = create_course_entries_batch db entries :=
        (Except.ok.injEq _ _).mp hok.symm
      refine ⟨hr, ?_⟩
      rw [hr]
      intro hnil
      exact hemp (by simp [hnil])
  · intro db entries h
    unfold business_create_course_entries_batch
    rw [if_pos (by simp [h])]

/-- Catalog and enabled setting for the C9 witness. -/
def dbW9 : Db :=
  ⟨[⟨1, "A101", "SDGs", "SDGs"⟩], [⟨11, 1, "01", "消除貧窮"⟩], [],
   [⟨21, 113, 1, 11, true⟩], [], [], 300⟩

/-- C9 amended witness: the failing first item of a concrete batch is skipped
without affecting the second. -/
theorem C9_amended_witness :
    create_course_entries_batch dbW9 [batchBad9,
      ⟨"CS101", "0001", 113, 1, "01", "3", none, false⟩] =
    create_course_entries_batch dbW9 [⟨"CS101", "0001", 113, 1, "01", "3", none, false⟩] :=
  C9_amended_batch_partial_success.1 dbW9 batchBad9
    [⟨"CS101", "0001", 113, 1, "01", "3", none, false⟩]
    (.valueError ("細項主題 " ++ "02" ++ " 沒有啟用設定")) rfl

/-! Claim C2: the enabled-setting write guard of createEntry. -/

/-- The state after the INSERT branch of create_course_entry. -/
def insertedEntryDb (db : Db) (subj cls : String) (y t sid : Nat) (ind : String)
    (w : Option (List Nat)) (mr : Bool) : Db :=
  { db with
    courseEntries := db.courseEntries ++ [⟨db.nextId, subj, cls, y, t, sid, ind, normWeeks w, mr⟩],
    nextId := db.nextId + 1 }

/-- The state after the UPDATE WHERE id statement on course entries. -/
def updatedEntriesDb (db : Db) (eid : Nat) (ind : String) (w : Option (List Nat))
    (isMR : Option Bool) : Db :=
  { db with
    courseEntries := db.courseEntries.map (fun x =>
      if x.id == eid then updateEntryRow ind w isMR x else x) }

/-- C2: create_course_entry fails with a ValueError-backed 400 exactly when no
enabled YearTermSubThemeSetting resolves the (year, term, sub_theme_code);
with one (and a live catalog join) it succeeds and an entry for the resolved
sub-theme is stored; and any entry row added by the call targets a sub-theme
with an enabled setting for that year-term. -/
theorem C2_create_entry_enabled_guard (db : Db) (subj cls : String) (y t : Nat)
    (code ind : String) (w : Option (List Nat)) (mr : Bool)
    (hnodup : (db.courseEntries.map (fun e => e.id)).Nodup)
    (hfresh : ∀ e ∈ db.courseEntries, e.id ≠ db.nextId) :
    (findEnabledSubThemeByCode db y t code = none →
      (∃ m, create_course_entry db subj cls y t code ind w mr = .error (.valueError m)) ∧
      (∃ m, business_create_course_entry db subj cls y t code ind w mr =
        .error (.badRequest m))) ∧
    (∀ st, findEnabledSubThemeByCode db y t code = some st →
      (catalogJoin db st.id).isSome →
      ∃ r db', create_course_entry db subj cls y t code ind w mr = .ok (some r, db') ∧
        business_create_course_entry db subj cls y t code ind w mr = .ok (r, db') ∧
        ∃ e ∈ db'.courseEntries, e.subj_no = subj ∧ e.ps_class_nbr = cls ∧
          e.academic_year = y ∧ e.academic_term = t ∧ e.sub_theme_id = st.id ∧
          e.indicator_value = ind) ∧
    (∀ r db', create_course_entry db subj cls y t code ind w mr = .ok (r, db') →
      db'.subThemeSettings = db.subThemeSettings ∧
      ∀ e ∈ db'.courseEntries, e ∉ db.courseEntries →
        ∃ s ∈ db.subThemeSettings, s.academic_year = y ∧ s.academic_term = t ∧
          s.sub_theme_id = e.sub_theme_id ∧ s.enabled = true) := by
  refine ⟨?_, ?_, ?_⟩
  · intro hnone
    constructor
    · exact ⟨"細項主題 " ++ code ++ " 沒有啟用設定",
        by simp [create_course_entry, hnone]⟩
    · exact ⟨"細項主題 " ++ code ++ " 沒有啟用設定",
        by simp [business_create_course_entry, create_course_entry, hnone]⟩
  · intro st hst hjoin
    obtain ⟨p, hp⟩ := Option.isSome_iff_exists.mp hjoin
    cases hex : get_course_entry_by_sub_theme_id db subj cls y t st.id with
    | some v =>
      obtain ⟨e0, hfind5, hview⟩ := Option.bind_eq_some.mp hex
      have hrow : v.row = e0 := by
        obtain ⟨q, hq, hv⟩ := Option.map_eq_some'.mp hview
        rw [← hv]
      have he0mem := List.mem_of_find?_eq_some hfind5
      have hkey5 := List.find?_some hfind5
      simp only [Bool.and_eq_true, beq_iff_eq] at hkey5
      have hfindid : db.courseEntries.find? (fun x => x.id == v.row.id) = some v.row := by
        rw [hrow]
        exact find?_key_self (fun x : CourseEntry => x.id) db.courseEntries hnodup e0 he0mem
      have hupd := find?_entry_update db.courseEntries v.row.id ind w (some mr) v.row hfindid
      have hjoin0 : catalogJoin db v.row.sub_theme_id = some p := by
        rw [hrow, hkey5.2]
        exact hp
      have hupd2 : (updatedEntriesDb db v.row.id ind w (some mr)).courseEntries.find?
          (fun x => x.id == v.row.id) = some (updateEntryRow ind w (some mr) v.row) := hupd
      have hget' : get_course_entry_by_id
          (updatedEntriesDb db v.row.id ind w (some mr)) v.row.id =
          some ⟨updateEntryRow ind w (some mr) v.row, p.1.sub_theme_code,
            p.1.sub_theme_name, p.2.theme_code⟩ := by
        unfold get_course_entry_by_id
        rw [hupd2]
        show entryViewOf _ (updateEntryRow ind w (some mr) v.row) = _
        unfold entryViewOf
        rw [show catalogJoin (updatedEntriesDb db v.row.id ind w (some mr))
            (updateEntryRow ind w (some mr) v.row).sub_theme_id = some p from hjoin0]
        rfl
      have hcreate : create_course_entry db subj cls y t code ind w mr =
          .ok (get_course_entry_by_id (updatedEntriesDb db v.row.id ind w (some mr)) v.row.id,
            updatedEntriesDb db v.row.id ind w (some mr)) := by
        unfold create_course_entry
        rw [hst]
        simp only
        rw [hex]
        rfl
      refine ⟨⟨updateEntryRow ind w (some mr) v.row, p.1.sub_theme_code,
          p.1.sub_theme_name, p.2.theme_code⟩,
        updatedEntriesDb db v.row.id ind w (some mr), ?_, ?_, ?_⟩
      · rw [hcreate, hget']
      · unfold business_create_course_entry
        rw [hcreate, hget']
      · refine ⟨updateEntryRow ind w (some mr) v.row, ?_, ?_⟩
        · show _ ∈ (updatedEntriesDb db v.row.id ind w (some mr)).courseEntries
          unfold updatedEntriesDb
          have hm : (if v.row.id == v.row.id then updateEntryRow ind w (some mr) v.row
              else v.row) ∈ db.courseEntries.map (fun x =>
                if x.id == v.row.id then updateEntryRow ind w (some mr) x else x) :=
            List.mem_map_of_mem _ (hrow ▸ he0mem)
          simpa using hm
        · rw [hrow]
          exact ⟨hkey5.1.1.1.1, hkey5.1.1.1.2, hkey5.1.1.2, hkey5.1.2, hkey5.2, rfl⟩
    | none =>
      have hnodup5 : db.courseEntries.any (fun e => e.subj_no == subj &&
          e.ps_class_nbr == cls && e.academic_year == y && e.academic_term == t &&
          e.sub_theme_id == st.id) = false := by
        cases hfind5 : db.courseEntries.find? (fun e => e.subj_no == subj &&
            e.ps_class_nbr == cls && e.academic_year == y && e.academic_term == t &&
            e.sub_theme_id == st.id) with
        | some e0 =>
          exfalso
          have hkey5 := List.find?_some hfind5
          simp only [Bool.and_eq_true, beq_iff_eq] at hkey5
          have hgv : get_course_entry_by_sub_theme_id db subj cls y t st.id =
              (entryViewOf db e0) := by
            unfold get_course_entry_by_sub_theme_id
            rw [hfind5]
            rfl
          rw [hex] at hgv
          have hv : entryViewOf db e0 = none := hgv.symm
          unfold entryViewOf at hv
          rw [hkey5.2, hp] at hv
          exact Option.noConfusion hv
        | none =>
          rw [List.any_eq_false]
          intro e he
          have hne := List.find?_eq_none.mp hfind5 e he
          simpa using hne
      have hnf : (insertedEntryDb db subj cls y t st.id ind w mr).courseEntries.find?
          (fun x => x.id == db.nextId) =
          some ⟨db.nextId, subj, cls, y, t, st.id, ind, normWeeks w, mr⟩ := by
        unfold insertedEntryDb
        rw [List.find?_append]
        have h1 : db.courseEntries.find? (fun x => x.id == db.nextId) = none := by
          rw [List.find?_eq_none]
          intro x hx
          simpa using hfresh x hx
        rw [h1]
        simp [List.find?_cons]
      have hget' : get_course_entry_by_id (insertedEntryDb db subj cls y t st.id ind w mr)
          db.nextId =
          some ⟨⟨db.nextId, subj, cls, y, t, st.id, ind, normWeeks w, mr⟩,
            p.1.sub_theme_code, p.1.sub_theme_name, p.2.theme_code⟩ := by
        unfold get_course_entry_by_id
        rw [hnf]
        show entryViewOf _ _ = _
        unfold entryViewOf
        rw [show catalogJoin (insertedEntryDb db subj cls y t st.id ind w mr) st.id =
            some p from hp]
        rfl
      have hcreate : create_course_entry db subj cls y t code ind w mr =
          .ok (get_course_entry_by_id (insertedEntryDb db subj cls y t st.id ind w mr)
            db.nextId, insertedEntryDb db subj cls y t st.id ind w mr) := by
        unfold create_course_entry
        rw [hst]
        simp only
        rw [hex]
        simp only [hnodup5]
        rfl
      refine ⟨⟨⟨db.nextId, subj, cls, y, t, st.id, ind, normWeeks w, mr⟩,
          p.1.sub_theme_code, p.1.sub_theme_name, p.2.theme_code⟩,
        insertedEntryDb db subj cls y t st.id ind w mr, ?_, ?_, ?_⟩
      · rw [hcreate, hget']
      · unfold business_create_course_entry
        rw [hcreate, hget']
      · refine ⟨⟨db.nextId, subj, cls, y, t, st.id, ind, normWeeks w, mr⟩, ?_, ?_⟩
        · show _ ∈ (insertedEntryDb db subj cls y t st.id ind w mr).courseEntries
          unfold insertedEntryDb
          simp
        · exact ⟨rfl, rfl, rfl, rfl, rfl, rfl⟩
  · intro r db' h
    cases hfe : findEnabledSubThemeByCode db y t code with
    | none =>
      rw [create_course_entry, hfe] at h
      exact Except.noConfusion h
    | some st' =>
      have hany := List.find?_some hfe
      simp only [Bool.and_eq_true] at hany
      obtain ⟨s, hsmem, hsprop⟩ := List.any_eq_true.mp hany.2
      simp only [Bool.and_eq_true, beq_iff_eq] at hsprop
      have hsetting : ∃ s ∈ db.subThemeSettings, s.academic_year = y ∧
          s.academic_term = t ∧ s.sub_theme_id = st'.id ∧ s.enabled = true :=
        ⟨s, hsmem, hsprop.1.1.1, hsprop.1.1.2, hsprop.1.2, hsprop.2⟩
      rw [create_course_entry, hfe] at h
      simp only at h
      cases hex : get_course_entry_by_sub_theme_id db subj cls y t st'.id with
      | some v =>
        rw [hex] at h
        have hpair := (Except.ok.injEq _ _).mp h
        have hdb' : db' = updatedEntriesDb db v.row.id ind w (some mr) := by
          rw [← ((Prod.mk.injEq _ _ _ _).mp hpair).2]
          rfl
        obtain ⟨e0, hfind5, hview⟩ := Option.bind_eq_some.mp hex
        have hrow : v.row = e0 := by
          obtain ⟨q, hq, hv⟩ := Option.map_eq_some'.mp hview
          rw [← hv]
        have hkey5 := List.find?_some hfind5
        simp only [Bool.and_eq_true, beq_iff_eq] at hkey5
        refine ⟨by rw [hdb']; rfl, ?_⟩
        intro e hemem henot
        rw [hdb'] at hemem
        unfold updatedEntriesDb at hemem
        obtain ⟨x, hxmem, hxe⟩ := List.mem_map.mp hemem
        by_cases hxid : (x.id == v.row.id) = true
        · have hxeq : x = e0 := by
            have hidx : x.id = e0.id := by
              have hb := beq_iff_eq.mp hxid
              rw [hb, hrow]
            have hfx : db.courseEntries.find? (fun z => z.id == e0.id) = some e0 :=
              find?_key_self (fun z : CourseEntry => z.id) db.courseEntries hnodup e0
                (List.mem_of_find?_eq_some hfind5)
            have hfx2 : db.courseEntries.find? (fun z => z.id == e0.id) = some x := by
              rw [← hidx]
              exact find?_key_self (fun z : CourseEntry => z.id) db.courseEntries hnodup x hxmem
            exact (Option.some.injEq _ _).mp (hfx2.symm.trans hfx)
          rw [hxid] at hxe
          simp only [if_true] at hxe
          have hesid : e.sub_theme_id = st'.id := by
            rw [← hxe]
            show (updateEntryRow ind w (some mr) x).sub_theme_id = st'.id
            rw [hxeq]
            exact hkey5.2
          rw [← hesid] at hsetting
          exact hsetting
        · exfalso
          rw [Bool.not_eq_true] at hxid
          rw [hxid] at hxe
          simp only [Bool.false_eq_true, if_false] at hxe
          exact henot (hxe ▸ hxmem)
      | none =>
        rw [hex] at h
        by_cases hdup : db.courseEntries.any (fun e => e.subj_no == subj &&
            e.ps_class_nbr == cls && e.academic_year == y && e.academic_term == t &&
            e.sub_theme_id == st'.id) = true
        · rw [if_pos hdup] at h
          exact Except.noConfusion h
        · rw [if_neg hdup] at h
          have hpair := (Except.ok.injEq _ _).mp h
          have hdb' : db' = insertedEntryDb db subj cls y t st'.id ind w mr := by
            rw [← ((Prod.mk.injEq _ _ _ _).mp hpair).2]
            rfl
          refine ⟨by rw [hdb']; rfl, ?_⟩
          intro e hemem henot
          rw [hdb'] at hemem
          unfold insertedEntryDb at hemem
          simp only [List.mem_append, List.mem_singleton] at hemem
          rcases hemem with hold | hnew
          · exact absurd hold henot
          · rw [hnew]
            exact hsetting

/-- C2 witness: on a concrete state with an enabled setting for code 01 the
entry is created, and the guard data is inspectable. -/
theorem C2_witness :
    ∃ r db', create_course_entry dbW9 "CS101" "0001" 113 1 "01" "3" none false =
        .ok (some r, db') ∧
      business_create_course_entry dbW9 "CS101" "0001" 113 1 "01" "3" none false =
        .ok (r, db') ∧
      ∃ e ∈ db'.courseEntries, e.subj_no = "CS101" ∧ e.ps_class_nbr = "0001" ∧
        e.academic_year = 113 ∧ e.academic_term = 1 ∧ e.sub_theme_id = 11 ∧
        e.indicator_value = "3" :=
  (C2_create_entry_enabled_guard dbW9 "CS101" "0001" 113 1 "01" "3" none false
    (by decide) (by decide)).2.1 ⟨11, 1, "01", "消除貧窮"⟩ (by decide) (by decide)

/-! Claim C3: upsert semantics of createEntry on a repeated natural key. -/

/-- Branch characterization of create_course_entry once the sub-theme
resolves: an existing natural key is updated in place, an absent one (with a
live catalog join) is inserted. -/
theorem create_entry_branches (db : Db) (subj cls : String) (y t : Nat)
    (code ind : String) (w : Option (List Nat)) (mr : Bool) (st : SubTheme)
    (hst : findEnabledSubThemeByCode db y t code = some st) :
    (∀ v, get_course_entry_by_sub_theme_id db subj cls y t st.id = some v →
      create_course_entry db subj cls y t code ind w mr =
        .ok (get_course_entry_by_id (updatedEntriesDb db v.row.id ind w (some mr)) v.row.id,
          updatedEntriesDb db v.row.id ind w (some mr))) ∧
    (get_course_entry_by_sub_theme_id db subj cls y t st.id = none →
      (catalogJoin db st.id).isSome →
      create_course_entry db subj cls y t code ind w mr =
        .ok (get_course_entry_by_id (insertedEntryDb db subj cls y t st.id ind w mr)
          db.nextId, insertedEntryDb db subj cls y t st.id ind w mr)) := by
  constructor
  · intro v hex
    unfold create_course_entry
    rw [hst]
    simp only
    rw [hex]
    rfl
  · intro hex hjoin
    obtain ⟨p, hp⟩ := Option.isSome_iff_exists.mp hjoin
    have hnodup5 : db.courseEntries.any (fun e => e.subj_no == subj &&
        e.ps_class_nbr == cls && e.academic_year == y && e.academic_term == t &&
        e.sub_theme_id == st.id) = false := by
      cases hfind5 : db.courseEntries.find? (fun e => e.subj_no == subj &&
          e.ps_class_nbr == cls && e.academic_year == y && e.academic_term == t &&
          e.sub_theme_id == st.id) with
      | some e0 =>
        exfalso
        have hkey5 := List.find?_some hfind5
        simp only [Bool.and_eq_true, beq_iff_eq] at hkey5
        have hgv : get_course_entry_by_sub_theme_id db subj cls y t st.id =
            (entryViewOf db e0) := by
          unfold get_course_entry_by_sub_theme_id
          rw [hfind5]
          rfl
        rw [hex] at hgv
        have hv : entryViewOf db e0 = none := hgv.symm
        unfold entryViewOf at hv
        rw [hkey5.2, hp] at hv
        exact Option.noConfusion hv
      | none =>
        rw [List.any_eq_false]
        intro e he
        have hne := List.find?_eq_none.mp hfind5 e he
        simpa using hne
    unfold create_course_entry
    rw [hst]
    simp only
    rw [hex]
    simp only [hnodup5]
    rfl

/-- The natural-key predicate on entry rows. -/
def entryKeyPred (subj cls : String) (y t sid : Nat) (e : CourseEntry) : Bool :=
  e.subj_no == subj && e.ps_class_nbr == cls && e.academic_year == y &&
    e.academic_term == t && e.sub_theme_id == sid

/-- The UPDATE WHERE id statement changes no key field, so key counts are
preserved. -/
theorem entryKeyCount_updatedEntriesDb (db : Db) (eid : Nat) (ind : String)
    (w : Option (List Nat)) (isMR : Option Bool) (subj cls : String) (y t sid : Nat) :
    entryKeyCount (updatedEntriesDb db eid ind w isMR).courseEntries subj cls y t sid =
    entryKeyCount db.courseEntries subj cls y t sid := by
  unfold entryKeyCount updatedEntriesDb
  show (List.filter _ (db.courseEntries.map _)).length = _
  rw [List.filter_map, List.length_map]
  congr 1
  apply List.filter_congr
  intro x _
  by_cases hx : (x.id == eid) = true
  · simp [Function.comp, hx, updateEntryRow]
  · simp [Function.comp, hx]

/-- Inserting a row matching the key raises the key count by one. -/
theorem entryKeyCount_insertedEntryDb (db : Db) (subj cls : String) (y t sid : Nat)
    (ind : String) (w : Option (List Nat)) (mr : Bool) :
    entryKeyCount (insertedEntryDb db subj cls y t sid ind w mr).courseEntries
      subj cls y t sid =
    entryKeyCount db.courseEntries subj cls y t sid + 1 := by
  unfold entryKeyCount insertedEntryDb
  show (List.filter _ (db.courseEntries ++ _)).length = _
  rw [List.filter_append]
  simp

/-- C3: calling createEntry twice with the same natural key (resolving through
the same enabled sub-theme setting) and two indicator values leaves exactly
one entry row for that key, and it holds the second value. -/
theorem C3_create_entry_twice_upsert (db : Db) (subj cls : String) (y t : Nat)
    (code v1 v2 : String) (w1 w2 : Option (List Nat)) (mr1 mr2 : Bool) (st : SubTheme)
    (hst : findEnabledSubThemeByCode db y t code = some st)
    (hjoin : (catalogJoin db st.id).isSome)
    (hcount : entryKeyCount db.courseEntries subj cls y t st.id ≤ 1) :
    ∃ r1 db1 r2 db2,
      create_course_entry db subj cls y t code v1 w1 mr1 = .ok (r1, db1) ∧
      create_course_entry db1 subj cls y t code v2 w2 mr2 = .ok (r2, db2) ∧
      entryKeyCount db2.courseEntries subj cls y t st.id = 1 ∧
      ∀ e ∈ db2.courseEntries, entryKeyPred subj cls y t st.id e = true →
        e.indicator_value = v2 := by
  have hbr1 := create_entry_branches db subj cls y t code v1 w1 mr1 st hst
  have step1 : ∃ r1 db1, create_course_entry db subj cls y t code v1 w1 mr1 =
      .ok (r1, db1) ∧
      entryKeyCount db1.courseEntries subj cls y t st.id = 1 ∧
      db1.subThemes = db.subThemes ∧ db1.subThemeSettings = db.subThemeSettings ∧
      db1.themes = db.themes := by
    cases hex : get_course_entry_by_sub_theme_id db subj cls y t st.id with
    | some v =>
      obtain ⟨e0, hfind5, hview⟩ := Option.bind_eq_some.mp hex
      have hge1 : 1 ≤ entryKeyCount db.courseEntries subj cls y t st.id := by
        have hp5 := List.find?_some hfind5
        have hmem0 : e0 ∈ db.courseEntries.filter (fun e => e.subj_no == subj &&
            e.ps_class_nbr == cls && e.academic_year == y && e.academic_term == t &&
            e.sub_theme_id == st.id) :=
          List.mem_filter.mpr ⟨List.mem_of_find?_eq_some hfind5, hp5⟩
        have := List.length_pos.mpr (List.ne_nil_of_mem hmem0)
        exact this
      refine ⟨_, _, hbr1.1 v hex, ?_, rfl, rfl, rfl⟩
      rw [entryKeyCount_updatedEntriesDb]
      omega
    | none =>
      have h0 : entryKeyCount db.courseEntries subj cls y t st.id = 0 := by
        obtain ⟨p, hp⟩ := Option.isSome_iff_exists.mp hjoin
        cases hfind5 : db.courseEntries.find? (fun e => e.subj_no == subj &&
            e.ps_class_nbr == cls && e.academic_year == y && e.academic_term == t &&
            e.sub_theme_id == st.id) with
        | some e0 =>
          exfalso
          have hkey5 := List.find?_some hfind5
          simp only [Bool.and_eq_true, beq_iff_eq] at hkey5
          have hgv : get_course_entry_by_sub_theme_id db subj cls y t st.id =
              (entryViewOf db e0) := by
            unfold get_course_entry_by_sub_theme_id
            rw [hfind5]
            rfl
          rw [hex] at hgv
          have hv : entryViewOf db e0 = none := hgv.symm
          unfold entryViewOf at hv
          rw [hkey5.2, hp] at hv
          exact Option.noConfusion hv
        | none =>
          unfold entryKeyCount
          rw [List.length_eq_zero, List.filter_eq_nil]
          intro e he
          have hne := List.find?_eq_none.mp hfind5 e he
          simpa using hne
      refine ⟨_, _, hbr1.2 hex hjoin, ?_, rfl, rfl, rfl⟩
      rw [entryKeyCount_insertedEntryDb, h0]
  obtain ⟨r1, db1, hc1, hcount1, hsub1, hset1, hthm1⟩ := step1
  have hst1 : findEnabledSubThemeByCode db1 y t code = some st := by
    unfold findEnabledSubThemeByCode at hst ⊢
    rw [hsub1, hset1]
    exact hst
  have hjoin1 : (catalogJoin db1 st.id).isSome := by
    unfold catalogJoin at hjoin ⊢
    rw [hsub1, hthm1]
    exact hjoin
  obtain ⟨x0, hfilter1⟩ := List.length_eq_one.mp hcount1
  have hbr2 := create_entry_branches db1 subj cls y t code v2 w2 mr2 st hst1
  have hx0mem : x0 ∈ db1.courseEntries ∧ entryKeyPred subj cls y t st.id x0 = true := by
    have : x0 ∈ db1.courseEntries.filter (fun e => e.subj_no == subj &&
        e.ps_class_nbr == cls && e.academic_year == y && e.academic_term == t &&
        e.sub_theme_id == st.id) := by
      rw [hfilter1]
      exact List.mem_singleton_self x0
    have hm := List.mem_filter.mp this
    exact ⟨hm.1, hm.2⟩
  have hfind2 : ∃ x1, db1.courseEntries.find? (fun e => e.subj_no == subj &&
      e.ps_class_nbr == cls && e.academic_year == y && e.academic_term == t &&
      e.sub_theme_id == st.id) = some x1 := by
    have hsome : (db1.courseEntries.find? (fun e => e.subj_no == subj &&
        e.ps_class_nbr == cls && e.academic_year == y && e.academic_term == t &&
        e.sub_theme_id == st.id)).isSome := by
      rw [List.find?_isSome]
      exact ⟨x0, hx0mem.1, hx0mem.2⟩
    exact Option.isSome_iff_exists.mp hsome
  obtain ⟨x1, hfind2⟩ := hfind2
  have hx1 : x1 = x0 := by
    have hp2 := List.find?_some hfind2
    have hx1f : x1 ∈ db1.courseEntries.filter (fun e => e.subj_no == subj &&
        e.ps_class_nbr == cls && e.academic_year == y && e.academic_term == t &&
        e.sub_theme_id == st.id) :=
      List.mem_filter.mpr ⟨List.mem_of_find?_eq_some hfind2, hp2⟩
    rw [hfilter1] at hx1f
    exact List.mem_singleton.mp hx1f
  have hkey1 := List.find?_some hfind2
  simp only [Bool.and_eq_true, beq_iff_eq] at hkey1
  obtain ⟨p1, hp1⟩ := Option.isSome_iff_exists.mp hjoin1
  have hex2 : get_course_entry_by_sub_theme_id db1 subj cls y t st.id =
      some ⟨x1, p1.1.sub_theme_code, p1.1.sub_theme_name, p1.2.theme_code⟩ := by
    unfold get_course_entry_by_sub_theme_id
    rw [hfind2]
    show entryViewOf db1 x1 = _
    unfold entryViewOf
    rw [show catalogJoin db1 x1.sub_theme_id = some p1 from hkey1.2 ▸ hp1]
    rfl
  have hc2 := hbr2.1 ⟨x1, p1.1.sub_theme_code, p1.1.sub_theme_name, p1.2.theme_code⟩ hex2
  refine ⟨r1, db1, _, _, hc1, hc2, ?_, ?_⟩
  · rw [entryKeyCount_updatedEntriesDb]
    exact hcount1
  · intro e hemem hekey
    unfold updatedEntriesDb at hemem
    obtain ⟨x, hxmem, hxe⟩ := List.mem_map.mp hemem
    by_cases hxid : (x.id == x1.id) = true
    · rw [hxid] at hxe
      simp only [if_true] at hxe
      rw [← hxe]
      rfl
    · exfalso
      rw [Bool.not_eq_true] at hxid
      rw [hxid] at hxe
      simp only [Bool.false_eq_true, if_false] at hxe
      have hxkey : entryKeyPred subj cls y t st.id x = true := hxe ▸ hekey
      have hxf : x ∈ db1.courseEntries.filter (fun e => e.subj_no == subj &&
          e.ps_class_nbr == cls && e.academic_year == y && e.academic_term == t &&
          e.sub_theme_id == st.id) := by
        refine List.mem_filter.mpr ⟨hxmem, ?_⟩
        exact hxkey
      rw [hfilter1] at hxf
      have hxx0 : x = x0 := List.mem_singleton.mp hxf
      rw [hxx0, ← hx1] at hxid
      simp at hxid

/-- C3 witness: two concrete calls on the same key leave one row with the
second value. -/
theorem C3_witness :
    ∃ r1 db1 r2 db2,
      create_course_entry dbW9 "CS101" "0001" 113 1 "01" "2" none false = .ok (r1, db1) ∧
      create_course_entry db1 "CS101" "0001" 113 1 "01" "3" none false = .ok (r2, db2) ∧
      entryKeyCount db2.courseEntries "CS101" "0001" 113 1 11 = 1 ∧
      ∀ e ∈ db2.courseEntries, entryKeyPred "CS101" "0001" 113 1 11 e = true →
        e.indicator_value = "3" :=
  C3_create_entry_twice_upsert dbW9 "CS101" "0001" 113 1 "01" "2" "3" none none
    false false ⟨11, 1, "01", "消除貧窮"⟩ (by decide) (by decide) (by decide)

/-! Claim C1: sub-theme materialization on theme-setting creation. -/

theorem perm_insortBy (lt : α → α → Bool) (x : α) (l : List α) :
    List.Perm (insortBy lt x l) (x :: l) := by
  induction l with
  | nil => simp [insortBy]
  | cons a as ih =>
    simp only [insortBy]
    by_cases h : lt x a
    · simp [h]
    · simp only [h, Bool.false_eq_true, if_false]
      exact (ih.cons a).trans (List.Perm.swap x a as)

theorem perm_foldl_insort (lt : α → α → Bool) :
    ∀ (l acc : List α), List.Perm (l.foldl (fun a x => insortBy lt x a) acc) (acc ++ l) := by
  intro l
  induction l with
  | nil => simp
  | cons a as ih =>
    intro acc
    have h1 : List.Perm ((a :: as).foldl (fun a x => insortBy lt x a) acc)
        (insortBy lt a acc ++ as) := by
      rw [List.foldl_cons]
      exact ih (insortBy lt a acc)
    have h2 : List.Perm (insortBy lt a acc ++ as) ((a :: acc) ++ as) :=
      (perm_insortBy lt a acc).append_right as
    have h3 : List.Perm ((a :: acc) ++ as) (acc ++ a :: as) := by
      simp only [List.cons_append]
      exact List.perm_middle.symm
    exact (h1.trans h2).trans h3

theorem perm_stableSortBy (lt : α → α → Bool) (l : List α) :
    List.Perm (stableSortBy lt l) l := by
  have h := perm_foldl_insort lt l []
  simpa [stableSortBy] using h

/-- The duplicate-key check of the materialization loop is exactly a zero key
count. -/
theorem subKey_any_false_iff (l : List SubThemeSetting) (y t sid : Nat) :
    (l.any (fun s => s.academic_year == y && s.academic_term == t &&
      s.sub_theme_id == sid)) = false ↔ subKeyCount l y t sid = 0 := by
  simp [subKeyCount, List.length_eq_zero, List.filter_eq_nil_iff, List.any_eq_false]

theorem insertSkipDup_frames (d : Db) (y t sid : Nat) (en : Bool) :
    (insertSubSettingSkipDup d y t sid en).themes = d.themes ∧
    (insertSubSettingSkipDup d y t sid en).subThemes = d.subThemes ∧
    (insertSubSettingSkipDup d y t sid en).themeSettings = d.themeSettings ∧
    (insertSubSettingSkipDup d y t sid en).courseEntries = d.courseEntries := by
  unfold insertSubSettingSkipDup
  split
  · exact ⟨rfl, rfl, rfl, rfl⟩
  · exact ⟨rfl, rfl, rfl, rfl⟩

theorem insertSkipDup_mono (d : Db) (y t sid : Nat) (en : Bool) (s : SubThemeSetting)
    (hs : s ∈ d.subThemeSettings) :
    s ∈ (insertSubSettingSkipDup d y t sid en).subThemeSettings := by
  unfold insertSubSettingSkipDup
  split
  · exact hs
  · exact List.mem_append_left _ hs

theorem insertSkipDup_new_shape (d : Db) (y t sid : Nat) (en : Bool)
    (s : SubThemeSetting) (hs : s ∈ (insertSubSettingSkipDup d y t sid en).subThemeSettings)
    (hnot : s ∉ d.subThemeSettings) :
    s.academic_year = y ∧ s.academic_term = t ∧ s.enabled = en ∧ s.sub_theme_id = sid := by
  unfold insertSubSettingSkipDup at hs
  revert hs
  split
  · intro hs
    exact absurd hs hnot
  · intro hs
    rcases List.mem_append.mp hs with h | h
    · exact absurd h hnot
    · have he : s = ⟨d.nextId, y, t, sid, en⟩ := List.mem_singleton.mp h
      rw [he]
      exact ⟨rfl, rfl, rfl, rfl⟩

theorem subKeyCount_insertSkipDup (d : Db) (y t sid0 sid : Nat) (en : Bool) :
    subKeyCount (insertSubSettingSkipDup d y t sid0 en).subThemeSettings y t sid =
    if sid = sid0 ∧ subKeyCount d.subThemeSettings y t sid = 0 then 1
    else subKeyCount d.subThemeSettings y t sid := by
  unfold insertSubSettingSkipDup
  by_cases hany : (d.subThemeSettings.any (fun s => s.academic_year == y &&
      s.academic_term == t && s.sub_theme_id == sid0)) = true
  · rw [if_pos hany]
    have hc0 : subKeyCount d.subThemeSettings y t sid0 ≠ 0 := by
      intro h0
      rw [← subKey_any_false_iff] at h0
      rw [hany] at h0
      exact Bool.noConfusion h0
    by_cases hsid : sid = sid0
    · rw [if_neg]
      intro ⟨_, hz⟩
      exact hc0 (hsid ▸ hz)
    · rw [if_neg]
      intro ⟨he, _⟩
      exact hsid he
  · have hanyf : (d.subThemeSettings.any (fun s => s.academic_year == y &&
        s.academic_term == t && s.sub_theme_id == sid0)) = false := by
      simpa using hany
    rw [if_neg hany]
    have hc0 : subKeyCount d.subThemeSettings y t sid0 = 0 :=
      (subKey_any_false_iff _ _ _ _).mp hanyf
    show subKeyCount (d.subThemeSettings ++ [⟨d.nextId, y, t, sid0, en⟩]) y t sid = _
    unfold subKeyCount
    rw [List.filter_append, List.length_append]
    by_cases hsid : sid = sid0
    · subst hsid
      rw [if_pos ⟨rfl, hc0⟩]
      have hone : (List.filter (fun s => s.academic_year == y && s.academic_term == t &&
          s.sub_theme_id == sid) [(⟨d.nextId, y, t, sid, en⟩ : SubThemeSetting)]).length = 1 := by
        simp
      have hz : (List.filter (fun s => s.academic_year == y && s.academic_term == t &&
          s.sub_theme_id == sid) d.subThemeSettings).length = 0 := hc0
      rw [hone, hz]
    · have hnone : (List.filter (fun s => s.academic_year == y && s.academic_term == t &&
          s.sub_theme_id == sid) [(⟨d.nextId, y, t, sid0, en⟩ : SubThemeSetting)]).length = 0 := by
        simp [Ne.symm hsid]
      rw [hnone, if_neg]
      · rfl
      · intro ⟨he, _⟩
        exact hsid he

theorem foldSub_frames (y t : Nat) (en : Bool) :
    ∀ (l : List SubTheme) (d : Db),
      (l.foldl (fun d st => insertSubSettingSkipDup d y t st.id en) d).themes = d.themes ∧
      (l.foldl (fun d st => insertSubSettingSkipDup d y t st.id en) d).subThemes = d.subThemes ∧
      (l.foldl (fun d st => insertSubSettingSkipDup d y t st.id en) d).themeSettings =
        d.themeSettings ∧
      (l.foldl (fun d st => insertSubSettingSkipDup d y t st.id en) d).courseEntries =
        d.courseEntries := by
  intro l
  induction l with
  | nil => exact fun d => ⟨rfl, rfl, rfl, rfl⟩
  | cons a as ih =>
    intro d
    have hstep := insertSkipDup_frames d y t a.id en
    have htail := ih (insertSubSettingSkipDup d y t a.id en)
    rw [List.foldl_cons]
    exact ⟨htail.1.trans hstep.1, htail.2.1.trans hstep.2.1,
      htail.2.2.1.trans hstep.2.2.1, htail.2.2.2.trans hstep.2.2.2⟩

theorem foldSub_mono (y t : Nat) (en : Bool) :
    ∀ (l : List SubTheme) (d : Db) (s : SubThemeSetting), s ∈ d.subThemeSettings →
      s ∈ (l.foldl (fun d st => insertSubSettingSkipDup d y t st.id en) d).subThemeSettings := by
  intro l
  induction l with
  | nil => exact fun d s hs => hs
  | cons a as ih =>
    intro d s hs
    rw [List.foldl_cons]
    exact ih _ s (insertSkipDup_mono d y t a.id en s hs)

theorem foldSub_new_shape (y t : Nat) (en : Bool) :
    ∀ (l : List SubTheme) (d : Db) (s : SubThemeSetting),
      s ∈ (l.foldl (fun d st => insertSubSettingSkipDup d y t st.id en) d).subThemeSettings →
      s ∉ d.subThemeSettings →
      s.academic_year = y ∧ s.academic_term = t ∧ s.enabled = en := by
  intro l
  induction l with
  | nil =>
    intro d s hs hnot
    exact absurd hs hnot
  | cons a as ih =>
    intro d s hs hnot
    rw [List.foldl_cons] at hs
    by_cases hmid : s ∈ (insertSubSettingSkipDup d y t a.id en).subThemeSettings
    · have h := insertSkipDup_new_shape d y t a.id en s hmid hnot
      exact ⟨h.1, h.2.1, h.2.2.1⟩
    · exact ih _ s hs hmid

theorem foldSub_subKeyCount (y t : Nat) (en : Bool) :
    ∀ (l : List SubTheme) (d : Db) (sid : Nat),
      subKeyCount (l.foldl (fun d st =>
        insertSubSettingSkipDup d y t st.id en) d).subThemeSettings y t sid =
      if sid ∈ l.map (fun su => su.id) ∧ subKeyCount d.subThemeSettings y t sid = 0 then 1
      else subKeyCount d.subThemeSettings y t sid := by
  intro l
  induction l with
  | nil =>
    intro d sid
    simp
  | cons a as ih =>
    intro d sid
    rw [List.foldl_cons, ih, subKeyCount_insertSkipDup]
    by_cases hc : subKeyCount d.subThemeSettings y t sid = 0
    · by_cases hsa : sid = a.id
      · rw [hsa] at hc
        simp [hsa, hc, List.mem_cons]
      · by_cases hmem : sid ∈ as.map (fun su => su.id)
        · simp [hsa, hc, hmem, List.mem_cons]
        · simp [hsa, hc, hmem, List.mem_cons]
    · simp [hc]

theorem foldSub_length (y t : Nat) (en : Bool) :
    ∀ (l : List SubTheme) (d : Db), (l.map (fun su => su.id)).Nodup →
      (∀ su ∈ l, subKeyCount d.subThemeSettings y t su.id = 0) →
      (l.foldl (fun d st =>
        insertSubSettingSkipDup d y t st.id en) d).subThemeSettings.length =
        d.subThemeSettings.length + l.length := by
  intro l
  induction l with
  | nil =>
    intro d _ _
    simp
  | cons a as ih =>
    intro d hnd hz
    rw [List.map_cons, List.nodup_cons] at hnd
    have hza : subKeyCount d.subThemeSettings y t a.id = 0 := hz a (List.mem_cons_self a as)
    have hanyf : (d.subThemeSettings.any (fun s => s.academic_year == y &&
        s.academic_term == t && s.sub_theme_id == a.id)) = false :=
      (subKey_any_false_iff _ _ _ _).mpr hza
    have hstep : (insertSubSettingSkipDup d y t a.id en).subThemeSettings =
        d.subThemeSettings ++ [⟨d.nextId, y, t, a.id, en⟩] := by
      unfold insertSubSettingSkipDup
      rw [hanyf]
      simp
    have hztail : ∀ su ∈ as, subKeyCount
        (insertSubSettingSkipDup d y t a.id en).subThemeSettings y t su.id = 0 := by
      intro su hsu
      rw [subKeyCount_insertSkipDup]
      have hne : su.id ≠ a.id := by
        intro he
        exact hnd.1 (he ▸ List.mem_map_of_mem (fun su => su.id) hsu)
      rw [if_neg (fun h => hne h.1)]
      exact hz su (List.mem_cons_of_mem a hsu)
    rw [List.foldl_cons, ih _ hnd.2 hztail, hstep]
    simp only [List.length_append, List.length_cons, List.length_nil]
    omega

/-- The state after the INSERT of the theme-setting row. -/
def insertedThemeSettingDb (db : Db) (y t tid : Nat) (fw : Bool) (sm : Nat) (mr : Bool) : Db :=
  { db with
    themeSettings := db.themeSettings ++ [⟨db.nextId, y, t, tid, fw, sm, mr⟩],
    nextId := db.nextId + 1 }

/-- C1: successfully creating a YearTermThemeSetting for a resolvable theme
with no setting yet for (year, term) inserts exactly one theme-setting row and
materializes the theme's sub-themes: every pre-existing sub-theme-setting row
survives (already-present keys are skipped, not failed), every sub-theme of the
theme without a prior (year, term) row gains exactly one, every newly added row
carries (year, term) and enabled=true, and on a state with none of the theme's
sub-themes configured the table grows by exactly the theme's sub-theme count
N. -/
theorem C1_theme_setting_materialization (db : Db) (y t : Nat) (code : String)
    (fw : Bool) (sm : Nat) (mr : Bool) (th : Theme)
    (hTheme : get_theme_by_code db code = some th)
    (hns : (db.themeSettings.any (fun s => s.academic_year == y &&
      s.academic_term == t && s.theme_id == th.id)) = false) :
    ∃ v db', create_school_year_theme_setting db y t code fw sm mr = .ok (some v, db') ∧
      (db'.themeSettings.filter (fun s => s.academic_year == y &&
        s.academic_term == t && s.theme_id == th.id)).length = 1 ∧
      (∀ s ∈ db.subThemeSettings, s ∈ db'.subThemeSettings) ∧
      (∀ su ∈ db.subThemes, su.theme_id = th.id →
        subKeyCount db'.subThemeSettings y t su.id =
          if subKeyCount db.subThemeSettings y t su.id = 0 then 1
          else subKeyCount db.subThemeSettings y t su.id) ∧
      (∀ s ∈ db'.subThemeSettings, s ∉ db.subThemeSettings →
        s.academic_year = y ∧ s.academic_term = t ∧ s.enabled = true) ∧
      (((db.subThemes.filter (fun su => su.theme_id == th.id)).map
          (fun su => su.id)).Nodup →
        (∀ su ∈ db.subThemes, su.theme_id = th.id →
          subKeyCount db.subThemeSettings y t su.id = 0) →
        db'.subThemeSettings.length = db.subThemeSettings.length +
          (db.subThemes.filter (fun su => su.theme_id == th.id)).length) := by
  have hfindnone : db.themeSettings.find? (fun s => s.academic_year == y &&
      s.academic_term == t && s.theme_id == th.id) = none := by
    rw [List.find?_eq_none]
    intro s hs
    have := List.any_eq_false.mp hns s hs
    simpa using this
  have hnewfind : (insertedThemeSettingDb db y t th.id fw sm mr).themeSettings.find?
      (fun s => s.academic_year == y && s.academic_term == t && s.theme_id == th.id) =
      some ⟨db.nextId, y, t, th.id, fw, sm, mr⟩ := by
    show (db.themeSettings ++ [(⟨db.nextId, y, t, th.id, fw, sm, mr⟩ : ThemeSetting)]).find?
      _ = _
    rw [List.find?_append, hfindnone]
    simp [List.find?_cons]
  have hview : get_school_year_theme_setting_by_code
      (insertedThemeSettingDb db y t th.id fw sm mr) y t code =
      some ⟨db.nextId, th.theme_code, th.theme_name, fw, sm, mr,
        subThemeStatusList (insertedThemeSettingDb db y t th.id fw sm mr) y t th.id⟩ := by
    unfold get_school_year_theme_setting_by_code
    rw [show get_theme_by_code (insertedThemeSettingDb db y t th.id fw sm mr) code =
      some th from hTheme]
    simp only
    rw [hnewfind]
  have hcreate : create_school_year_theme_setting db y t code fw sm mr =
      .ok (some ⟨db.nextId, th.theme_code, th.theme_name, fw, sm, mr,
        subThemeStatusList (insertedThemeSettingDb db y t th.id fw sm mr) y t th.id⟩,
        (get_sub_themes_by_theme_id (insertedThemeSettingDb db y t th.id fw sm mr)
          th.id).foldl (fun d st => insertSubSettingSkipDup d y t st.id true)
          (insertedThemeSettingDb db y t th.id fw sm mr)) := by
    unfold create_school_year_theme_setting
    rw [hTheme]
    simp only [hns, Bool.false_eq_true, if_false]
    rw [show get_school_year_theme_setting_by_code
        { db with
          themeSettings := db.themeSettings ++ [⟨db.nextId, y, t, th.id, fw, sm, mr⟩],
          nextId := db.nextId + 1 } y t code =
      some ⟨db.nextId, th.theme_code, th.theme_name, fw, sm, mr,
        subThemeStatusList (insertedThemeSettingDb db y t th.id fw sm mr) y t th.id⟩
      from hview]
    rfl
  have hperm : List.Perm (get_sub_themes_by_theme_id
      (insertedThemeSettingDb db y t th.id fw sm mr) th.id)
      (db.subThemes.filter (fun su => su.theme_id == th.id)) := by
    show List.Perm (stableSortBy _ (db.subThemes.filter (fun su => su.theme_id == th.id))) _
    exact perm_stableSortBy _ _
  set db1 := insertedThemeSettingDb db y t th.id fw sm mr with hdb1
  set l := get_sub_themes_by_theme_id db1 th.id with hl
  set dbF := l.foldl (fun d st => insertSubSettingSkipDup d y t st.id true) db1 with hdbF
  have hframes := foldSub_frames y t true l db1
  refine ⟨_, dbF, hcreate, ?_, ?_, ?_, ?_, ?_⟩
  · rw [hframes.2.2.1]
    show ((db.themeSettings ++ [(⟨db.nextId, y, t, th.id, fw, sm, mr⟩ : ThemeSetting)]).filter
      _).length = 1
    rw [List.filter_append]
    have hz : (db.themeSettings.filter (fun s => s.academic_year == y &&
        s.academic_term == t && s.theme_id == th.id)) = [] := by
      rw [List.filter_eq_nil_iff]
      intro s hs
      have := List.any_eq_false.mp hns s hs
      simpa using this
    rw [hz]
    simp
  · intro s hs
    exact foldSub_mono y t true l db1 s hs
  · intro su hsu hth
    have hcnt := foldSub_subKeyCount y t true l db1 su.id
    have hmem : su.id ∈ l.map (fun su => su.id) := by
      apply List.mem_map_of_mem
      rw [List.Perm.mem_iff hperm]
      exact List.mem_filter.mpr ⟨hsu, by simpa using hth⟩
    have hsame : subKeyCount db1.subThemeSettings y t su.id =
        subKeyCount db.subThemeSettings y t su.id := rfl
    rw [hcnt, hsame]
    by_cases hz : subKeyCount db.subThemeSettings y t su.id = 0
    · rw [if_pos ⟨hmem, hz⟩, if_pos hz]
    · rw [if_neg (fun h => hz h.2), if_neg hz]
  · intro s hs hnot
    exact foldSub_new_shape y t true l db1 s hs hnot
  · intro hnd hz
    have hndl : (l.map (fun su => su.id)).Nodup := by
      have hp : List.Perm (l.map (fun su => su.id))
          ((db.subThemes.filter (fun su => su.theme_id == th.id)).map (fun su => su.id)) :=
        hperm.map _
      exact (List.Perm.nodup_iff hp).mpr hnd
    have hzl : ∀ su ∈ l, subKeyCount db1.subThemeSettings y t su.id = 0 := by
      intro su hsu
      have hsu' : su ∈ db.subThemes.filter (fun su => su.theme_id == th.id) :=
        (List.Perm.mem_iff hperm).mp hsu
      have hm := List.mem_filter.mp hsu'
      exact hz su hm.1 (by simpa using hm.2)
    have hlen := foldSub_length y t true l db1 hndl hzl
    rw [hlen]
    have hlenl : l.length = (db.subThemes.filter (fun su => su.theme_id == th.id)).length :=
      hperm.length_eq
    rw [hlenl]
    rfl

/-- Catalog for the C1 witness: one theme with two sub-themes and nothing
configured yet. -/
def dbW1 : Db :=
  ⟨[⟨1, "A101", "SDGs", "SDGs"⟩], [⟨11, 1, "01", "a"⟩, ⟨12, 1, "02", "b"⟩],
   [], [], [], [], 400⟩

/-- C1 witness at a concrete state: N = 2 sub-themes are materialized. -/
theorem C1_witness :
    ∃ v db', create_school_year_theme_setting dbW1 113 1 "A101" true 3 false =
        .ok (some v, db') ∧
      (db'.themeSettings.filter (fun s => s.academic_year == 113 &&
        s.academic_term == 1 && s.theme_id == 1)).length = 1 ∧
      (∀ s ∈ dbW1.subThemeSettings, s ∈ db'.subThemeSettings) ∧
      (∀ su ∈ dbW1.subThemes, su.theme_id = 1 →
        subKeyCount db'.subThemeSettings 113 1 su.id =
          if subKeyCount dbW1.subThemeSettings 113 1 su.id = 0 then 1
          else subKeyCount dbW1.subThemeSettings 113 1 su.id) ∧
      (∀ s ∈ db'.subThemeSettings, s ∉ dbW1.subThemeSettings →
        s.academic_year = 113 ∧ s.academic_term = 1 ∧ s.enabled = true) ∧
      (((dbW1.subThemes.filter (fun su => su.theme_id == 1)).map
          (fun su => su.id)).Nodup →
        (∀ su ∈ dbW1.subThemes, su.theme_id = 1 →
          subKeyCount dbW1.subThemeSettings 113 1 su.id = 0) →
        db'.subThemeSettings.length = dbW1.subThemeSettings.length +
          (dbW1.subThemes.filter (fun su => su.theme_id == 1)).length) :=
  C1_theme_setting_materialization dbW1 113 1 "A101" true 3 false
    ⟨1, "A101", "SDGs", "SDGs"⟩ (by decide) (by decide)

/-! Claim C10: the simple CSV export at a year-term with a shared week
column. -/

/-- Failing input for the export: theme A301 with week tracking and the two
enabled sub-themes 1120 and 1130, which share the week column name
媒體識讀或資訊判讀週次, plus one stored course entry. -/
def dbC10 : Db :=
  ⟨[⟨3, "A301", "指標主題", "指標"⟩],
   [⟨21, 3, "1120", "媒體識讀"⟩, ⟨22, 3, "1130", "資訊判讀"⟩],
   [⟨31, 113, 1, 3, true, 3, false⟩],
   [⟨41, 113, 1, 21, true⟩, ⟨42, 113, 1, 22, true⟩],
   [⟨51, "CS101", "0001", 113, 1, 21, "3", some [2, 3], false⟩],
   [("CS101", "課程A")], 500⟩

/-- C10: at the failing input the export's header holds 7 columns (the shared
week column is deduplicated) but the single data row emits 8 cells (one week
cell per week-tracked sub-theme), so the data cells do not line up with the
header columns. -/
theorem C10_shared_week_column_misaligns_row :
    Except.map (fun rows => rows.map List.length)
      (exportCourseEntriesTable dbC10 113 1) = .ok [7, 8] ∧
    Except.map (fun rows => rows.headD []) (exportCourseEntriesTable dbC10 113 1) =
      .ok ["學年期", "OPMS_COURSE_NO", "PS_CLASS_NBR", "課程名稱",
        "媒體識讀(主題:指標主題)", "媒體識讀或資訊判讀週次", "資訊判讀(主題:指標主題)"] := by
  constructor
  · rfl
  · rfl

/-! Claim C4: the destructive copy of theme settings between year-terms. -/

theorem find?_append_none_right (p : α → Bool) (l₁ l₂ : List α)
    (h : ∀ x ∈ l₂, p x = false) : (l₁ ++ l₂).find? p = l₁.find? p := by
  induction l₁ with
  | nil =>
    simp only [List.nil_append, List.find?_nil]
    rw [List.find?_eq_none]
    intro x hx
    simp [h x hx]
  | cons a t ih =>
    rw [List.cons_append]
    cases hpa : p a with
    | true => rw [List.find?_cons_of_pos _ hpa, List.find?_cons_of_pos _ hpa]
    | false => rw [List.find?_cons_of_neg _ (by simp [hpa]),
        List.find?_cons_of_neg _ (by simp [hpa]), ih]

theorem find?_filter_keep (p q : α → Bool) (l : List α)
    (h : ∀ x, p x = true → q x = true) :
    (l.filter q).find? p = l.find? p := by
  induction l with
  | nil => rfl
  | cons a t ih =>
    by_cases hq : q a = true
    · rw [List.filter_cons_of_pos hq]
      cases hpa : p a with
      | true => rw [List.find?_cons_of_pos _ hpa, List.find?_cons_of_pos _ hpa]
      | false => rw [List.find?_cons_of_neg _ (by simp [hpa]),
          List.find?_cons_of_neg _ (by simp [hpa]), ih]
    · have hpa : p a = false := by
        cases hpa' : p a with
        | true => exact absurd (h a hpa') hq
        | false => rfl
      rw [List.filter_cons_of_neg (by simp [hq]),
        List.find?_cons_of_neg _ (by simp [hpa]), ih]

theorem any_false_of_filter_nil (p q : α → Bool) (l : List α)
    (hq : l.filter q = []) (h : ∀ x, p x = true → q x = true) :
    l.any p = false := by
  cases hany : l.any p with
  | false => rfl
  | true =>
    rw [List.any_eq_true] at hany
    obtain ⟨x, hx, hpx⟩ := hany
    rw [List.filter_eq_nil_iff] at hq
    exact absurd (h x hpx) (by simpa using hq x hx)

theorem filter_after_not_filter (p : α → Bool) (l : List α) :
    (l.filter (fun x => !p x)).filter p = [] := by
  rw [List.filter_filter, List.filter_eq_nil_iff]
  intro x _
  simp

theorem not_filter_idem (p : α → Bool) (l : List α) :
    (l.filter (fun x => !p x)).filter (fun x => !p x) =
      l.filter (fun x => !p x) := by
  rw [List.filter_filter]
  exact List.filter_congr (fun x _ => by cases hp : p x <;> simp [hp])

theorem nodup_themeSubs_ids (db : Db) (tid : Nat)
    (h : (db.subThemes.map SubTheme.id).Nodup) :
    ((themeSubs db tid).map SubTheme.id).Nodup :=
  List.Nodup.sublist (List.Sublist.map _ (List.filter_sublist _)) h

theorem subFold_spec (ty tt : Nat) (subs : List (Nat × Bool)) :
    ∀ (c : Nat) (db : Db),
    (subs.map Prod.fst).Nodup →
    ∃ rows,
      subs.foldl (subCopyStep ty tt) (c, db) =
        (c + (subs.filter (fun p => !(db.subThemeSettings.any
            (fun s => s.academic_year == ty && s.academic_term == tt &&
              s.sub_theme_id == p.1)))).length,
         { db with
           subThemeSettings := db.subThemeSettings ++ rows,
           nextId := db.nextId + (subs.filter (fun p => !(db.subThemeSettings.any
            (fun s => s.academic_year == ty && s.academic_term == tt &&
              s.sub_theme_id == p.1)))).length }) ∧
      rows.map subConfig = subs.filter (fun p => !(db.subThemeSettings.any
        (fun s => s.academic_year == ty && s.academic_term == tt &&
          s.sub_theme_id == p.1))) ∧
      ∀ x ∈ rows, x.academic_year = ty ∧ x.academic_term = tt := by
  induction subs with
  | nil =>
    intro c db _
    refine ⟨[], ?_, rfl, by simp⟩
    simp
  | cons p rest ih =>
    intro c db hnd
    have hndrest : (rest.map Prod.fst).Nodup := by
      rw [List.map_cons, List.nodup_cons] at hnd
      exact hnd.2
    have hp1 : p.1 ∉ rest.map Prod.fst := by
      rw [List.map_cons, List.nodup_cons] at hnd
      exact hnd.1
    cases hk : db.subThemeSettings.any (fun s => s.academic_year == ty &&
        s.academic_term == tt && s.sub_theme_id == p.1) with
    | true =>
      have hstep : subCopyStep ty tt (c, db) p = (c, db) := by
        unfold subCopyStep
        simp [hk]
      obtain ⟨rows, heq, hcfg, hyt⟩ := ih c db hndrest
      refine ⟨rows, ?_, ?_, hyt⟩
      · rw [List.foldl_cons, hstep, heq, List.filter_cons_of_neg (by simp [hk])]
      · rw [hcfg, List.filter_cons_of_neg (by simp [hk])]
    | false =>
      have hstep : subCopyStep ty tt (c, db) p =
          (c + 1,
           { db with
             subThemeSettings := db.subThemeSettings ++ [⟨db.nextId, ty, tt, p.1, p.2⟩],
             nextId := db.nextId + 1 }) := by
        unfold subCopyStep
        simp [hk]
      obtain ⟨rows', heq, hcfg, hyt⟩ := ih (c + 1)
        { db with
          subThemeSettings := db.subThemeSettings ++ [⟨db.nextId, ty, tt, p.1, p.2⟩],
          nextId := db.nextId + 1 } hndrest
      have hcls : rest.filter (fun q => !((db.subThemeSettings ++
            [(⟨db.nextId, ty, tt, p.1, p.2⟩ : SubThemeSetting)]).any
            (fun s => s.academic_year == ty && s.academic_term == tt &&
              s.sub_theme_id == q.1))) =
          rest.filter (fun q => !(db.subThemeSettings.any
            (fun s => s.academic_year == ty && s.academic_term == tt &&
              s.sub_theme_id == q.1))) := by
        refine List.filter_congr ?_
        intro q hq
        have hne : p.1 ≠ q.1 := fun hc =>
          hp1 (hc ▸ List.mem_map_of_mem Prod.fst hq)
        rw [List.any_append]
        simp [hne]
      rw [hcls] at heq hcfg
      refine ⟨⟨db.nextId, ty, tt, p.1, p.2⟩ :: rows', ?_, ?_, ?_⟩
      · rw [List.foldl_cons, hstep, heq,
          List.filter_cons_of_pos (by simp [hk]), List.length_cons]
        have hn1 : c + 1 + (rest.filter (fun q => !(db.subThemeSettings.any
            (fun s => s.academic_year == ty && s.academic_term == tt &&
              s.sub_theme_id == q.1)))).length =
            c + ((rest.filter (fun q => !(db.subThemeSettings.any
            (fun s => s.academic_year == ty && s.academic_term == tt &&
              s.sub_theme_id == q.1)))).length + 1) := by
          omega
        have hn2 : db.nextId + 1 + (rest.filter (fun q => !(db.subThemeSettings.any
            (fun s => s.academic_year == ty && s.academic_term == tt &&
              s.sub_theme_id == q.1)))).length =
            db.nextId + ((rest.filter (fun q => !(db.subThemeSettings.any
            (fun s => s.academic_year == ty && s.academic_term == tt &&
              s.sub_theme_id == q.1)))).length + 1) := by
          omega
        rw [hn1, hn2, List.append_assoc, List.singleton_append]
      · rw [List.map_cons, hcfg, List.filter_cons_of_pos (by simp [hk]), subConfig]
      · intro x hx
        rcases List.mem_cons.mp hx with hx | hx
        · subst hx
          exact ⟨rfl, rfl⟩
        · exact hyt x hx

theorem copyOneTheme_spec (db : Db) (sy st ty tt : Nat) (row : ThemeSetting)
    (hguard : db.themeSettings.any (fun s => s.academic_year == ty &&
      s.academic_term == tt && s.theme_id == row.theme_id) = false)
    (hndsub : ((themeSubs db row.theme_id).map SubTheme.id).Nodup) :
    ∃ db' rows,
      copyOneTheme db sy st ty tt row =
        .ok ((freshThemeSubs db ty tt row.theme_id).length, db') ∧
      db'.themes = db.themes ∧ db'.subThemes = db.subThemes ∧
      db'.courseEntries = db.courseEntries ∧ db'.cofsubj = db.cofsubj ∧
      db'.themeSettings = db.themeSettings ++
        [⟨db.nextId, ty, tt, row.theme_id, row.fill_in_week_enabled,
          row.scale_max, row.select_most_relevant⟩] ∧
      db'.subThemeSettings = db.subThemeSettings ++ rows ∧
      rows.map subConfig = copiedSubConfigsFresh db sy st ty tt row.theme_id ∧
      (∀ x ∈ rows, x.academic_year = ty ∧ x.academic_term = tt) := by
  have hcopy : copyOneTheme db sy st ty tt row =
      .ok ((copiedSubConfigs db sy st row.theme_id).foldl (subCopyStep ty tt)
        (0,
         { db with
           themeSettings := db.themeSettings ++
             [⟨db.nextId, ty, tt, row.theme_id, row.fill_in_week_enabled,
               row.scale_max, row.select_most_relevant⟩],
           nextId := db.nextId + 1 })) := by
    unfold copyOneTheme
    simp only [hguard, Bool.false_eq_true, if_false]
    rfl
  obtain ⟨rows, hfold, hcfg, hyt⟩ := subFold_spec ty tt
    (copiedSubConfigs db sy st row.theme_id) 0
    { db with
      themeSettings := db.themeSettings ++
        [⟨db.nextId, ty, tt, row.theme_id, row.fill_in_week_enabled,
          row.scale_max, row.select_most_relevant⟩],
      nextId := db.nextId + 1 }
    (by
      rw [copiedSubConfigs, List.map_map]
      exact hndsub)
  have hfilter : (copiedSubConfigs db sy st row.theme_id).filter
      (fun p => !(db.subThemeSettings.any
        (fun s => s.academic_year == ty && s.academic_term == tt &&
          s.sub_theme_id == p.1))) =
      copiedSubConfigsFresh db sy st ty tt row.theme_id := by
    rw [copiedSubConfigs, List.filter_map]
    rfl
  rw [hfilter] at hfold hcfg
  rw [hfold] at hcopy
  refine ⟨{ db with
      themeSettings := db.themeSettings ++
        [⟨db.nextId, ty, tt, row.theme_id, row.fill_in_week_enabled,
          row.scale_max, row.select_most_relevant⟩],
      subThemeSettings := db.subThemeSettings ++ rows,
      nextId := db.nextId + 1 +
        (copiedSubConfigsFresh db sy st ty tt row.theme_id).length },
    rows, ?_, rfl, rfl, rfl, rfl, rfl, rfl, hcfg, hyt⟩
  rw [hcopy]
  have h0 : 0 + (copiedSubConfigsFresh db sy st ty tt row.theme_id).length =
      (freshThemeSubs db ty tt row.theme_id).length := by
    rw [Nat.zero_add, copiedSubConfigsFresh, List.length_map]
  rw [h0]

theorem copyThemesLoop_spec (db0 : Db) (sy st ty tt : Nat)
    (hne : ty ≠ sy ∨ tt ≠ st)
    (hT0 : db0.themeSettings.filter (tgtTheme ty tt) = [])
    (hcat : (db0.subThemes.map SubTheme.id).Nodup) :
    ∀ (rs : List ThemeSetting), (rs.map ThemeSetting.theme_id).Nodup →
    ∀ (tc sc : Nat) (db : Db) (extraT : List ThemeSetting)
      (extraS : List SubThemeSetting),
    db.subThemes = db0.subThemes →
    db.themeSettings = db0.themeSettings ++ extraT →
    db.subThemeSettings = db0.subThemeSettings ++ extraS →
    (∀ x ∈ extraT, x.academic_year = ty ∧ x.academic_term = tt) →
    (∀ x ∈ extraS, x.academic_year = ty ∧ x.academic_term = tt) →
    (∀ r ∈ rs, ∀ x ∈ extraT, x.theme_id ≠ r.theme_id) →
    (∀ r ∈ rs, ∀ su ∈ themeSubs db0 r.theme_id, ∀ x ∈ extraS,
      x.sub_theme_id ≠ su.id) →
    ∃ db' newT newS,
      copyThemesLoop sy st ty tt rs (tc, sc, db) =
        .ok (tc + rs.length,
          sc + (rs.map (fun r => (freshThemeSubs db0 ty tt r.theme_id).length)).sum,
          db') ∧
      db'.themes = db.themes ∧ db'.subThemes = db.subThemes ∧
      db'.courseEntries = db.courseEntries ∧ db'.cofsubj = db.cofsubj ∧
      db'.themeSettings = db.themeSettings ++ newT ∧
      db'.subThemeSettings = db.subThemeSettings ++ newS ∧
      newT.map themeConfig = rs.map themeConfig ∧
      (∀ x ∈ newT, x.academic_year = ty ∧ x.academic_term = tt) ∧
      newS.map subConfig =
        rs.flatMap (fun r => copiedSubConfigsFresh db0 sy st ty tt r.theme_id) ∧
      (∀ x ∈ newS, x.academic_year = ty ∧ x.academic_term = tt) := by
  intro rs
  induction rs with
  | nil =>
    intro _ tc sc db extraT extraS _ _ _ _ _ _ _
    exact ⟨db, [], [], by simp [copyThemesLoop], rfl, rfl, rfl, rfl,
      by simp, by simp, by simp, by simp, by simp, by simp⟩
  | cons r rest ih =>
    intro hnd tc sc db extraT extraS hsub hteq hseq hexT hexS hdT hdS
    have hndr : r.theme_id ∉ rest.map ThemeSetting.theme_id := by
      rw [List.map_cons, List.nodup_cons] at hnd
      exact hnd.1
    have hndrest : (rest.map ThemeSetting.theme_id).Nodup := by
      rw [List.map_cons, List.nodup_cons] at hnd
      exact hnd.2
    have hts : ∀ tid, themeSubs db tid = themeSubs db0 tid := by
      intro tid
      rw [themeSubs, themeSubs, hsub]
    have hsef : ∀ sid, sourceEnabledFlag db sy st sid =
        sourceEnabledFlag db0 sy st sid := by
      intro sid
      rw [sourceEnabledFlag, sourceEnabledFlag, hseq, find?_append_none_right]
      intro x hx
      obtain ⟨hy, ht⟩ := hexS x hx
      show (x.sub_theme_id == sid && x.academic_year == sy &&
        x.academic_term == st) = false
      rcases hne with hne | hne
      · rw [hy]
        simp [hne]
      · rw [ht]
        simp [hne]
    have hkeyfree : ∀ su ∈ themeSubs db0 r.theme_id,
        subKeyFree db ty tt su.id = subKeyFree db0 ty tt su.id := by
      intro su hsu
      rw [subKeyFree, subKeyFree, hseq, List.any_append]
      have hX : extraS.any (fun s => s.academic_year == ty &&
          s.academic_term == tt && s.sub_theme_id == su.id) = false := by
        cases hany : extraS.any (fun s => s.academic_year == ty &&
            s.academic_term == tt && s.sub_theme_id == su.id) with
        | false => rfl
        | true =>
          exfalso
          rw [List.any_eq_true] at hany
          obtain ⟨x, hx, hpx⟩ := hany
          simp only [Bool.and_eq_true, beq_iff_eq] at hpx
          exact hdS r (List.mem_cons_self r rest) su hsu x hx hpx.2
      rw [hX, Bool.or_false]
    have hfreshT : freshThemeSubs db ty tt r.theme_id =
        freshThemeSubs db0 ty tt r.theme_id := by
      rw [freshThemeSubs, freshThemeSubs, hts]
      exact List.filter_congr (fun su hsu => hkeyfree su hsu)
    have hcscF : copiedSubConfigsFresh db sy st ty tt r.theme_id =
        copiedSubConfigsFresh db0 sy st ty tt r.theme_id := by
      rw [copiedSubConfigsFresh, copiedSubConfigsFresh, hfreshT]
      exact List.map_congr_left (fun su _ => by rw [hsef])
    have hguard : db.themeSettings.any (fun s => s.academic_year == ty &&
        s.academic_term == tt && s.theme_id == r.theme_id) = false := by
      rw [hteq, List.any_append]
      have h1 : db0.themeSettings.any (fun s => s.academic_year == ty &&
          s.academic_term == tt && s.theme_id == r.theme_id) = false := by
        refine any_false_of_filter_nil _ (tgtTheme ty tt) _ hT0 ?_
        intro x hx
        simp only [Bool.and_eq_true] at hx
        simp [tgtTheme, hx.1.1, hx.1.2]
      have h2 : extraT.any (fun s => s.academic_year == ty &&
          s.academic_term == tt && s.theme_id == r.theme_id) = false := by
        cases hany : extraT.any (fun s => s.academic_year == ty &&
            s.academic_term == tt && s.theme_id == r.theme_id) with
        | false => rfl
        | true =>
          exfalso
          rw [List.any_eq_true] at hany
          obtain ⟨x, hx, hpx⟩ := hany
          simp only [Bool.and_eq_true, beq_iff_eq] at hpx
          exact hdT r (List.mem_cons_self r rest) x hx hpx.2
      rw [h1, h2]
      rfl
    have hndsub : ((themeSubs db r.theme_id).map SubTheme.id).Nodup := by
      rw [hts]
      exact nodup_themeSubs_ids db0 _ hcat
    obtain ⟨db1, rows, hrun, hth1, hsu1, hce1, hcs1, htset1, hsset1, hrcfg, hryt⟩ :=
      copyOneTheme_spec db sy st ty tt r hguard hndsub
    have hrowid : ∀ x ∈ rows, ∃ su ∈ themeSubs db0 r.theme_id,
        x.sub_theme_id = su.id := by
      intro x hx
      have hmem : subConfig x ∈ rows.map subConfig := List.mem_map_of_mem subConfig hx
      rw [hrcfg, hcscF, copiedSubConfigsFresh] at hmem
      obtain ⟨su, hsu, hpe⟩ := List.mem_map.mp hmem
      refine ⟨su, (List.mem_filter.mp hsu).1, ?_⟩
      have hpair : (su.id, sourceEnabledFlag db0 sy st su.id) =
          (x.sub_theme_id, x.enabled) := hpe
      exact (congrArg Prod.fst hpair).symm
    obtain ⟨db2, newT', newS', hloop, hth2, hsu2, hce2, hcs2, htset2, hsset2,
        hcfgT, hytT, hcfgS, hytS⟩ :=
      ih hndrest (tc + 1) (sc + (freshThemeSubs db ty tt r.theme_id).length) db1
        (extraT ++ [⟨db.nextId, ty, tt, r.theme_id, r.fill_in_week_enabled,
          r.scale_max, r.select_most_relevant⟩])
        (extraS ++ rows)
        (hsu1.trans hsub)
        (by rw [htset1, hteq, List.append_assoc])
        (by rw [hsset1, hseq, List.append_assoc])
        (by
          intro x hx
          rcases List.mem_append.mp hx with hx | hx
          · exact hexT x hx
          · rw [List.mem_singleton] at hx
            subst hx
            exact ⟨rfl, rfl⟩)
        (by
          intro x hx
          rcases List.mem_append.mp hx with hx | hx
          · exact hexS x hx
          · exact hryt x hx)
        (by
          intro r' hr' x hx
          rcases List.mem_append.mp hx with hx | hx
          · exact hdT r' (List.mem_cons_of_mem r hr') x hx
          · rw [List.mem_singleton] at hx
            subst hx
            show r.theme_id ≠ r'.theme_id
            intro hc
            exact hndr (hc ▸ List.mem_map_of_mem ThemeSetting.theme_id hr'))
        (by
          intro r' hr' su' hsu' x hx
          rcases List.mem_append.mp hx with hx | hx
          · exact hdS r' (List.mem_cons_of_mem r hr') su' hsu' x hx
          · obtain ⟨su, hsu, hid⟩ := hrowid x hx
            rw [hid]
            intro hc
            have hmemsu : su ∈ db0.subThemes := (List.mem_filter.mp hsu).1
            have hmemsu' : su' ∈ db0.subThemes := (List.mem_filter.mp hsu').1
            have heqsu : su = su' :=
              List.inj_on_of_nodup_map hcat hmemsu hmemsu' hc
            have ht1 : su.theme_id = r.theme_id :=
              beq_iff_eq.mp (List.mem_filter.mp hsu).2
            have ht2 : su'.theme_id = r'.theme_id :=
              beq_iff_eq.mp (List.mem_filter.mp hsu').2
            apply hndr
            rw [← ht1, heqsu, ht2]
            exact List.mem_map_of_mem ThemeSetting.theme_id hr')
    have hstep1 : copyThemesLoop sy st ty tt (r :: rest) (tc, sc, db) =
        copyThemesLoop sy st ty tt rest
          (tc + 1, sc + (freshThemeSubs db ty tt r.theme_id).length, db1) := by
      show (match copyOneTheme db sy st ty tt r with
        | .error e => (.error e : Except DbErr (Nat × Nat × Db))
        | .ok (n, db') => copyThemesLoop sy st ty tt rest (tc + 1, sc + n, db')) = _
      rw [hrun]
    refine ⟨db2,
      (⟨db.nextId, ty, tt, r.theme_id, r.fill_in_week_enabled,
        r.scale_max, r.select_most_relevant⟩ : ThemeSetting) :: newT',
      rows ++ newS', ?_, hth2.trans hth1, hsu2.trans hsu1, hce2.trans hce1,
      hcs2.trans hcs1, ?_, ?_, ?_, ?_, ?_, ?_⟩
    · rw [hstep1, hloop]
      simp only [List.map_cons, List.sum_cons, List.length_cons, hfreshT]
      have e1 : tc + 1 + rest.length = tc + (rest.length + 1) := by omega
      have e2 : sc + (freshThemeSubs db0 ty tt r.theme_id).length +
          (rest.map (fun r => (freshThemeSubs db0 ty tt r.theme_id).length)).sum =
          sc + ((freshThemeSubs db0 ty tt r.theme_id).length +
            (rest.map (fun r => (freshThemeSubs db0 ty tt r.theme_id).length)).sum) := by
        omega
      rw [e1, e2]
    · rw [htset2, htset1, List.append_assoc, List.singleton_append]
    · rw [hsset2, hsset1, List.append_assoc]
    · rw [List.map_cons, hcfgT, List.map_cons]
      rfl
    · intro x hx
      rcases List.mem_cons.mp hx with hx | hx
      · subst hx
        exact ⟨rfl, rfl⟩
      · exact hytT x hx
    · rw [List.map_append, hrcfg, hcscF, hcfgS]
      simp
    · intro x hx
      rcases List.mem_append.mp hx with hx | hx
      · exact hryt x hx
      · exact hytS x hx

theorem copy_core_spec (db1 : Db) (sy st ty tt : Nat)
    (hne : ty ≠ sy ∨ tt ≠ st)
    (hT0 : db1.themeSettings.filter (tgtTheme ty tt) = [])
    (hcat : (db1.subThemes.map SubTheme.id).Nodup)
    (hnds : ((srcThemeRows db1 sy st).map ThemeSetting.theme_id).Nodup) :
    ∃ db' newS,
      copyThemesLoop sy st ty tt (srcThemeRows db1 sy st) (0, 0, db1) =
        .ok ((srcThemeRows db1 sy st).length,
          ((srcThemeRows db1 sy st).map
            (fun r => (freshThemeSubs db1 ty tt r.theme_id).length)).sum, db') ∧
      (db'.themeSettings.filter (tgtTheme ty tt)).map themeConfig =
        (srcThemeRows db1 sy st).map themeConfig ∧
      db'.subThemeSettings.filter (tgtSub ty tt) =
        db1.subThemeSettings.filter (tgtSub ty tt) ++ newS ∧
      newS.map subConfig =
        (srcThemeRows db1 sy st).flatMap
          (fun r => copiedSubConfigsFresh db1 sy st ty tt r.theme_id) ∧
      db'.themeSettings.filter (fun s => !tgtTheme ty tt s) =
        db1.themeSettings.filter (fun s => !tgtTheme ty tt s) ∧
      db'.subThemeSettings.filter (fun s => !tgtSub ty tt s) =
        db1.subThemeSettings.filter (fun s => !tgtSub ty tt s) := by
  obtain ⟨db', newT, newS, hloop, _, _, _, _, htset, hsset, hcfgT, hytT,
      hcfgS, hytS⟩ :=
    copyThemesLoop_spec db1 sy st ty tt hne hT0 hcat (srcThemeRows db1 sy st)
      hnds 0 0 db1 [] [] rfl (by simp) (by simp) (by simp) (by simp)
      (by simp) (by simp)
  refine ⟨db', newS, ?_, ?_, ?_, hcfgS, ?_, ?_⟩
  · rw [hloop]
    simp
  · rw [htset, List.filter_append, hT0, List.nil_append]
    have hkeep : newT.filter (tgtTheme ty tt) = newT :=
      List.filter_eq_self.mpr (fun x hx => by
        obtain ⟨h1, h2⟩ := hytT x hx
        simp [tgtTheme, h1, h2])
    rw [hkeep, hcfgT]
  · rw [hsset, List.filter_append]
    have hkeep : newS.filter (tgtSub ty tt) = newS :=
      List.filter_eq_self.mpr (fun x hx => by
        obtain ⟨h1, h2⟩ := hytS x hx
        simp [tgtSub, h1, h2])
    rw [hkeep]
  · rw [htset, List.filter_append]
    have hdrop : newT.filter (fun s => !tgtTheme ty tt s) = [] := by
      rw [List.filter_eq_nil_iff]
      intro x hx
      obtain ⟨h1, h2⟩ := hytT x hx
      simp [tgtTheme, h1, h2]
    rw [hdrop, List.append_nil]
  · rw [hsset, List.filter_append]
    have hdrop : newS.filter (fun s => !tgtSub ty tt s) = [] := by
      rw [List.filter_eq_nil_iff]
      intro x hx
      obtain ⟨h1, h2⟩ := hytS x hx
      simp [tgtSub, h1, h2]
    rw [hdrop, List.append_nil]

/-- C4 (amended): copyThemeSettings fails with the DAO ValueError exactly when
the source year-term has no theme settings. When the source is non-empty, the
target year-term differs from the source, catalog sub-theme ids are distinct
and source theme ids are distinct, two cases arise. If the target already has
theme settings, all its theme- and sub-theme-level settings (orphans included)
are deleted and counted, one target theme setting per source theme setting and
one target sub-theme setting per catalog sub-theme under each copied theme are
inserted (carrying the source enabled flag, defaulting to disabled), the
insert counts are returned and afterward the target's settings are exactly
those derived from the source. If the target has no theme settings, nothing
is deleted (both deleted counts are 0 even when target sub-theme-setting rows
exist): theme settings are copied as above, but a pre-existing target
sub-theme-setting key is skipped - left with its old enabled flag and not
counted - and only free keys receive source-derived rows, so the target's
sub-theme settings are the untouched pre-existing rows followed by rows for
the free keys only. Rows of other year-terms are untouched in both cases. -/
theorem C4_amended_destructive_copy (db : Db) (sy st ty tt : Nat)
    (hne : ty ≠ sy ∨ tt ≠ st)
    (hcat : (db.subThemes.map SubTheme.id).Nodup)
    (hndS : ((srcThemeRows db sy st).map ThemeSetting.theme_id).Nodup) :
    (srcThemeRows db sy st = [] →
      copy_school_year_theme_settings db sy st ty tt =
        .error (.valueError "來源學年期不存在主題設定")) ∧
    (srcThemeRows db sy st ≠ [] →
      db.themeSettings.filter (tgtTheme ty tt) ≠ [] →
      ∃ db',
        copy_school_year_theme_settings db sy st ty tt =
          .ok (⟨(srcThemeRows db sy st).length,
            ((srcThemeRows db sy st).map
              (fun r => (themeSubs db r.theme_id).length)).sum,
            (db.themeSettings.filter (tgtTheme ty tt)).length,
            (db.subThemeSettings.filter (tgtSub ty tt)).length⟩, db') ∧
        (db'.themeSettings.filter (tgtTheme ty tt)).map themeConfig =
          (srcThemeRows db sy st).map themeConfig ∧
        (db'.subThemeSettings.filter (tgtSub ty tt)).map subConfig =
          (srcThemeRows db sy st).flatMap
            (fun r => copiedSubConfigs db sy st r.theme_id) ∧
        db'.themeSettings.filter (fun s => !tgtTheme ty tt s) =
          db.themeSettings.filter (fun s => !tgtTheme ty tt s) ∧
        db'.subThemeSettings.filter (fun s => !tgtSub ty tt s) =
          db.subThemeSettings.filter (fun s => !tgtSub ty tt s)) ∧
    (srcThemeRows db sy st ≠ [] →
      db.themeSettings.filter (tgtTheme ty tt) = [] →
      ∃ db' newS,
        copy_school_year_theme_settings db sy st ty tt =
          .ok (⟨(srcThemeRows db sy st).length,
            ((srcThemeRows db sy st).map
              (fun r => (freshThemeSubs db ty tt r.theme_id).length)).sum,
            0, 0⟩, db') ∧
        (db'.themeSettings.filter (tgtTheme ty tt)).map themeConfig =
          (srcThemeRows db sy st).map themeConfig ∧
        db'.subThemeSettings.filter (tgtSub ty tt) =
          db.subThemeSettings.filter (tgtSub ty tt) ++ newS ∧
        newS.map subConfig =
          (srcThemeRows db sy st).flatMap
            (fun r => copiedSubConfigsFresh db sy st ty tt r.theme_id) ∧
        db'.themeSettings.filter (fun s => !tgtTheme ty tt s) =
          db.themeSettings.filter (fun s => !tgtTheme ty tt s) ∧
        db'.subThemeSettings.filter (fun s => !tgtSub ty tt s) =
          db.subThemeSettings.filter (fun s => !tgtSub ty tt s)) := by
  refine ⟨?_, ?_, ?_⟩
  · intro h
    simp [copy_school_year_theme_settings, h]
  · intro h htgtne
    have hlen : ((srcThemeRows db sy st).length == 0) = false := by
      simp only [beq_eq_false_iff_ne, ne_eq, List.length_eq_zero]
      exact h
    have htgt : (db.themeSettings.filter (tgtTheme ty tt)).length > 0 :=
      List.length_pos.mpr htgtne
    have hT0 : ({ db with
        subThemeSettings := db.subThemeSettings.filter (fun s => !tgtSub ty tt s),
        themeSettings := db.themeSettings.filter (fun s => !tgtTheme ty tt s)
        } : Db).themeSettings.filter (tgtTheme ty tt) = [] :=
      filter_after_not_filter _ _
    have hsrcCl : srcThemeRows ({ db with
        subThemeSettings := db.subThemeSettings.filter (fun s => !tgtSub ty tt s),
        themeSettings := db.themeSettings.filter (fun s => !tgtTheme ty tt s)
        } : Db) sy st = srcThemeRows db sy st := by
      show (db.themeSettings.filter (fun s => !tgtTheme ty tt s)).filter
        (fun s => s.academic_year == sy && s.academic_term == st) = _
      rw [List.filter_filter, srcThemeRows]
      refine List.filter_congr ?_
      intro x _
      cases hsp : (x.academic_year == sy && x.academic_term == st) with
      | false => simp [hsp]
      | true =>
        simp only [Bool.and_eq_true, beq_iff_eq] at hsp
        have htg : tgtTheme ty tt x = false := by
          rcases hne with hne | hne
          · rw [tgtTheme, hsp.1]
            simp [Ne.symm hne]
          · rw [tgtTheme, hsp.2]
            simp [Ne.symm hne]
        simp [hsp.1, hsp.2, htg]
    have hsefCl : ∀ sid, sourceEnabledFlag ({ db with
        subThemeSettings := db.subThemeSettings.filter (fun s => !tgtSub ty tt s),
        themeSettings := db.themeSettings.filter (fun s => !tgtTheme ty tt s)
        } : Db) sy st sid = sourceEnabledFlag db sy st sid := by
      intro sid
      rw [sourceEnabledFlag, sourceEnabledFlag]
      show (((db.subThemeSettings.filter (fun s => !tgtSub ty tt s)).find? _).map _).getD
        false = _
      rw [find?_filter_keep]
      intro x hx
      simp only [Bool.and_eq_true, beq_iff_eq] at hx
      have htg : tgtSub ty tt x = false := by
        rcases hne with hne | hne
        · rw [tgtSub, hx.1.2]
          simp [Ne.symm hne]
        · rw [tgtSub, hx.2]
          simp [Ne.symm hne]
      simp [htg]
    have hfreeCl : ∀ sid, subKeyFree ({ db with
        subThemeSettings := db.subThemeSettings.filter (fun s => !tgtSub ty tt s),
        themeSettings := db.themeSettings.filter (fun s => !tgtTheme ty tt s)
        } : Db) ty tt sid = true := by
      intro sid
      rw [subKeyFree]
      have hany : ({ db with
          subThemeSettings := db.subThemeSettings.filter (fun s => !tgtSub ty tt s),
          themeSettings := db.themeSettings.filter (fun s => !tgtTheme ty tt s)
          } : Db).subThemeSettings.any (fun s => s.academic_year == ty &&
            s.academic_term == tt && s.sub_theme_id == sid) = false := by
        refine any_false_of_filter_nil _ (tgtSub ty tt) _
          (filter_after_not_filter _ _) ?_
        intro x hx
        simp only [Bool.and_eq_true] at hx
        simp [tgtSub, hx.1.1, hx.1.2]
      rw [hany]
      rfl
    have hfreshCl : ∀ tid, freshThemeSubs ({ db with
        subThemeSettings := db.subThemeSettings.filter (fun s => !tgtSub ty tt s),
        themeSettings := db.themeSettings.filter (fun s => !tgtTheme ty tt s)
        } : Db) ty tt tid = themeSubs db tid := by
      intro tid
      rw [freshThemeSubs]
      rw [List.filter_eq_self.mpr (fun su _ => hfreeCl su.id)]
      rfl
    have hcscFCl : ∀ tid, copiedSubConfigsFresh ({ db with
        subThemeSettings := db.subThemeSettings.filter (fun s => !tgtSub ty tt s),
        themeSettings := db.themeSettings.filter (fun s => !tgtTheme ty tt s)
        } : Db) sy st ty tt tid = copiedSubConfigs db sy st tid := by
      intro tid
      rw [copiedSubConfigsFresh, hfreshCl, copiedSubConfigs]
      exact List.map_congr_left (fun su _ => by rw [hsefCl])
    obtain ⟨db', newS, hloop, hthm, hsubeq, hnewcfg, hfrT, hfrS⟩ :=
      copy_core_spec ({ db with
        subThemeSettings := db.subThemeSettings.filter (fun s => !tgtSub ty tt s),
        themeSettings := db.themeSettings.filter (fun s => !tgtTheme ty tt s)
        } : Db) sy st ty tt hne hT0 hcat (by rw [hsrcCl]; exact hndS)
    have hsubnil : ({ db with
        subThemeSettings := db.subThemeSettings.filter (fun s => !tgtSub ty tt s),
        themeSettings := db.themeSettings.filter (fun s => !tgtTheme ty tt s)
        } : Db).subThemeSettings.filter (tgtSub ty tt) = [] :=
      filter_after_not_filter _ _
    refine ⟨db', ?_, ?_, ?_, ?_, ?_⟩
    · simp only [copy_school_year_theme_settings, hlen, Bool.false_eq_true,
        if_false]
      rw [if_pos htgt]
      rw [hloop, hsrcCl]
      have hlamF : (fun r : ThemeSetting => (freshThemeSubs ({ db with
          subThemeSettings := db.subThemeSettings.filter (fun s => !tgtSub ty tt s),
          themeSettings := db.themeSettings.filter (fun s => !tgtTheme ty tt s)
          } : Db) ty tt r.theme_id).length) =
          (fun r : ThemeSetting => (themeSubs db r.theme_id).length) :=
        funext (fun r => by rw [hfreshCl])
      rw [hlamF]
    · rw [hthm, hsrcCl]
    · rw [hsubeq, hsubnil, List.nil_append, hnewcfg, hsrcCl]
      have hfun : (fun r : ThemeSetting => copiedSubConfigsFresh ({ db with
          subThemeSettings := db.subThemeSettings.filter (fun s => !tgtSub ty tt s),
          themeSettings := db.themeSettings.filter (fun s => !tgtTheme ty tt s)
          } : Db) sy st ty tt r.theme_id) =
          (fun r : ThemeSetting => copiedSubConfigs db sy st r.theme_id) :=
        funext (fun r => hcscFCl r.theme_id)
      rw [hfun]
    · rw [hfrT]
      exact not_filter_idem _ _
    · rw [hfrS]
      exact not_filter_idem _ _
  · intro h htgt
    have hlen : ((srcThemeRows db sy st).length == 0) = false := by
      simp only [beq_eq_false_iff_ne, ne_eq, List.length_eq_zero]
      exact h
    obtain ⟨db', newS, hloop, hthm, hsubeq, hnewcfg, hfrT, hfrS⟩ :=
      copy_core_spec db sy st ty tt hne htgt hcat hndS
    refine ⟨db', newS, ?_, hthm, hsubeq, hnewcfg, hfrT, hfrS⟩
    simp only [copy_school_year_theme_settings, hlen, Bool.false_eq_true,
      if_false]
    rw [if_neg (by rw [htgt]; simp)]
    rw [hloop]

/-- Failing input for the original claim: year-term (113,1) holds one theme
setting and one sub-theme setting, and is copied onto itself. -/
def dbC4 : Db :=
  ⟨[⟨1, "A101", "SDGs", "SDGs"⟩], [⟨9, 1, "01", "消除貧窮"⟩],
   [⟨70, 113, 1, 1, true, 5, false⟩], [⟨80, 113, 1, 9, true⟩], [], [], 90⟩

/-- C4 counterexample: copying a non-empty year-term onto itself succeeds
with themes_count = 0 and sub_themes_count = 0 and leaves the year-term with
no settings at all - the source re-query runs after the target deletion - so
the call does not insert one theme setting per source theme setting and the
target does not end up with the settings derived from the source. -/
theorem C4_counterexample_self_copy_wipes_target :
    Except.map (fun p => (p.1,
        (p.2.themeSettings.filter (tgtTheme 113 1)).length,
        (p.2.subThemeSettings.filter (tgtSub 113 1)).length))
      (copy_school_year_theme_settings dbC4 113 1 113 1) =
    .ok (⟨0, 0, 1, 1⟩, 0, 0) := by rfl

/-- Witness database for the cleared branch of the amended C4: source
year-term (112,2) configures theme 1 with sub-theme 9 enabled (sub-theme 10
has no source row), target year-term (113,1) already holds one theme setting
and one sub-theme setting. -/
def dbW4 : Db :=
  ⟨[⟨1, "A101", "SDGs", "SDGs"⟩],
   [⟨9, 1, "01", "消除貧窮"⟩, ⟨10, 1, "02", "終止飢餓"⟩],
   [⟨70, 112, 2, 1, true, 5, false⟩, ⟨71, 113, 1, 1, false, 3, true⟩],
   [⟨80, 112, 2, 9, true⟩, ⟨81, 113, 1, 9, false⟩],
   [], [], 90⟩

/-- Witness database for the no-theme-settings branch of the amended C4: the
target year-term (113,1) has no theme settings but holds the orphan sub-theme
setting (sub-theme 9, enabled); the source (112,2) configures theme 1 with
sub-theme 9 explicitly disabled. -/
def dbO4 : Db :=
  ⟨[⟨1, "A101", "SDGs", "SDGs"⟩],
   [⟨9, 1, "01", "消除貧窮"⟩, ⟨10, 1, "02", "終止飢餓"⟩],
   [⟨70, 112, 2, 1, true, 5, false⟩],
   [⟨80, 112, 2, 9, false⟩, ⟨81, 113, 1, 9, true⟩],
   [], [], 90⟩

/-- C4 witness: the amended theorem applied at dbW4 (cleared branch: one
deleted theme setting, one deleted sub-theme setting, one copied theme
setting, two materialised sub-theme settings) and at dbO4 (no-theme-settings
branch: nothing deleted, sub_themes_count counts only the free key 10, and
the orphan key 9 keeps its old enabled=true where the source-derived flag
would be false). -/
theorem C4_amended_witness :
    (srcThemeRows dbW4 112 2 ≠ [] ∧
     ∃ db',
       copy_school_year_theme_settings dbW4 112 2 113 1 =
         .ok (⟨1, 2, 1, 1⟩, db') ∧
       (db'.themeSettings.filter (tgtTheme 113 1)).map themeConfig =
         [(1, true, 5, false)] ∧
       (db'.subThemeSettings.filter (tgtSub 113 1)).map subConfig =
         [(9, true), (10, false)]) ∧
    (∃ db',
       copy_school_year_theme_settings dbO4 112 2 113 1 =
         .ok (⟨1, 1, 0, 0⟩, db') ∧
       (db'.themeSettings.filter (tgtTheme 113 1)).map themeConfig =
         [(1, true, 5, false)] ∧
       (db'.subThemeSettings.filter (tgtSub 113 1)).map subConfig =
         [(9, true), (10, false)]) := by
  constructor
  · have hmain := (C4_amended_destructive_copy dbW4 112 2 113 1
      (Or.inl (by decide)) (by decide) (by decide)).2.1 (by decide) (by decide)
    obtain ⟨db', hok, hthm, hsubm, _, _⟩ := hmain
    refine ⟨by decide, db', ?_, ?_, ?_⟩
    · rw [hok]
      rfl
    · rw [hthm]
      rfl
    · rw [hsubm]
      rfl
  · have hmain := (C4_amended_destructive_copy dbO4 112 2 113 1
      (Or.inl (by decide)) (by decide) (by decide)).2.2 (by decide) (by decide)
    obtain ⟨db', newS, hok, hthm, hsubeq, hnewcfg, _, _⟩ := hmain
    refine ⟨db', ?_, ?_, ?_⟩
    · rw [hok]
      rfl
    · rw [hthm]
      rfl
    · rw [hsubeq, List.map_append, hnewcfg]
      rfl

/-! Claim C5: the filtered course-entry copy between year-terms. -/

/-- Membership of a course-entry row in one course and year-term, the WHERE
clause of get_course_entries_by_subj_no. -/
def tgtCourseKey (subj cls : String) (y t : Nat) (e : CourseEntry) : Bool :=
  e.subj_no == subj && e.ps_class_nbr == cls && e.academic_year == y &&
    e.academic_term == t

/-- The catalog sub_theme_code of a sub-theme id. -/
def catalogSubCode (db : Db) (sid : Nat) : Option String :=
  (db.subThemes.find? (fun su => su.id == sid)).map (fun su => su.sub_theme_code)

/-- The enabled_set membership test of copy_course_entries. -/
def enabledPred (pairs : List (String × String)) (v : EntryView) : Bool :=
  pairs.contains (v.theme_code, v.sub_theme_code)

theorem length_filter_partition (p : α → Bool) (l : List α) :
    (l.filter p).length + (l.filter (fun x => !p x)).length = l.length := by
  induction l with
  | nil => rfl
  | cons a t ih => cases hp : p a <;> simp [List.filter_cons, hp] <;> omega

theorem copyEntriesLoop_spec (db0 : Db) (subj cls : String) (ty tt : Nat)
    (enabledPairs : List (String × String))
    (hcat : (db0.subThemes.map SubTheme.id).Nodup)
    (hnotgt : db0.courseEntries.filter (tgtCourseKey subj cls ty tt) = []) :
    ∀ (vs : List EntryView),
    (∀ v ∈ vs, enabledPred enabledPairs v = true →
      (findSubThemeByCodeAnySetting db0 ty tt v.sub_theme_code).isSome = true) →
    ((vs.filter (enabledPred enabledPairs)).map
      (fun v => v.sub_theme_code)).Nodup →
    ∀ (c s : Nat) (db : Db) (extra : List CourseEntry),
    db.subThemes = db0.subThemes →
    db.subThemeSettings = db0.subThemeSettings →
    db.courseEntries = db0.courseEntries ++ extra →
    (∀ x ∈ extra, ∀ v ∈ vs, enabledPred enabledPairs v = true →
      ∀ su, findSubThemeByCodeAnySetting db0 ty tt v.sub_theme_code = some su →
        x.sub_theme_id ≠ su.id) →
    ∃ db' newRows,
      copyEntriesLoop subj cls ty tt enabledPairs vs (c, s, db) =
        .ok (c + (vs.filter (enabledPred enabledPairs)).length,
          s + (vs.filter (fun v => !enabledPred enabledPairs v)).length, db') ∧
      db'.themes = db.themes ∧ db'.subThemes = db.subThemes ∧
      db'.themeSettings = db.themeSettings ∧
      db'.subThemeSettings = db.subThemeSettings ∧ db'.cofsubj = db.cofsubj ∧
      db'.courseEntries = db.courseEntries ++ newRows ∧
      (∀ x ∈ newRows, x.subj_no = subj ∧ x.ps_class_nbr = cls ∧
        x.academic_year = ty ∧ x.academic_term = tt) ∧
      newRows.map (fun e => (e.indicator_value, e.week_numbers, e.is_most_relevant)) =
        (vs.filter (enabledPred enabledPairs)).map
          (fun v => (v.row.indicator_value, normWeeks v.row.week_numbers,
            v.row.is_most_relevant)) ∧
      newRows.map (fun e => catalogSubCode db0 e.sub_theme_id) =
        (vs.filter (enabledPred enabledPairs)).map
          (fun v => some v.sub_theme_code) := by
  intro vs
  induction vs with
  | nil =>
    intro _ _ c s db extra _ _ _ _
    exact ⟨db, [], by simp [copyEntriesLoop], rfl, rfl, rfl, rfl, rfl,
      by simp, by simp, by simp, by simp⟩
  | cons v rest ih =>
    intro hres hcodes c s db extra hsub hsets hce hdisj
    have hres' : ∀ w ∈ rest, enabledPred enabledPairs w = true →
        (findSubThemeByCodeAnySetting db0 ty tt w.sub_theme_code).isSome = true :=
      fun w hw => hres w (List.mem_cons_of_mem v hw)
    cases hv : enabledPred enabledPairs v with
    | false =>
      have hcodes' : ((rest.filter (enabledPred enabledPairs)).map
          (fun v => v.sub_theme_code)).Nodup := by
        rwa [List.filter_cons_of_neg (by simp [hv])] at hcodes
      obtain ⟨db', newRows, hloop, h1, h2, h3, h4, h5, h6, h7, h8, h9⟩ :=
        ih hres' hcodes' c (s + 1) db extra hsub hsets hce
          (fun x hx w hw => hdisj x hx w (List.mem_cons_of_mem v hw))
      refine ⟨db', newRows, ?_, h1, h2, h3, h4, h5, h6, h7, ?_, ?_⟩
      · have hstep : copyEntriesLoop subj cls ty tt enabledPairs (v :: rest)
            (c, s, db) =
            copyEntriesLoop subj cls ty tt enabledPairs rest (c, s + 1, db) := by
          show (if enabledPairs.contains (v.theme_code, v.sub_theme_code) = true then
              (match copy_course_entry_with_new_user db subj cls ty tt
                  v.sub_theme_code v.row.indicator_value
                  (normWeeks v.row.week_numbers) v.row.is_most_relevant with
                | .error e => (.error e : Except DbErr (Nat × Nat × Db))
                | .ok (_, db') =>
                  copyEntriesLoop subj cls ty tt enabledPairs rest (c + 1, s, db'))
              else copyEntriesLoop subj cls ty tt enabledPairs rest (c, s + 1, db)) = _
          rw [enabledPred] at hv
          rw [hv]
          simp
        rw [hstep, hloop, List.filter_cons_of_neg (by simp [hv]),
          List.filter_cons_of_pos (by simp [hv]), List.length_cons]
        have e1 : s + 1 + (rest.filter
            (fun v => !enabledPred enabledPairs v)).length =
            s + ((rest.filter (fun v => !enabledPred enabledPairs v)).length + 1) := by
          omega
        rw [e1]
      · rw [h8, List.filter_cons_of_neg (by simp [hv])]
      · rw [h9, List.filter_cons_of_neg (by simp [hv])]
    | true =>
      obtain ⟨su, hsu⟩ := Option.isSome_iff_exists.mp
        (hres v (List.mem_cons_self v rest) hv)
      have hsucode : su.sub_theme_code = v.sub_theme_code := by
        have h := List.find?_some hsu
        simp only [Bool.and_eq_true, beq_iff_eq] at h
        exact h.1
      have hsumem : su ∈ db0.subThemes := List.mem_of_find?_eq_some hsu
      have htrans : findSubThemeByCodeAnySetting db ty tt v.sub_theme_code =
          some su := by
        rw [findSubThemeByCodeAnySetting] at hsu ⊢
        rw [hsub]
        simp only [hsets]
        exact hsu
      have hguard : db.courseEntries.any (fun e => e.subj_no == subj &&
          e.ps_class_nbr == cls && e.academic_year == ty &&
          e.academic_term == tt && e.sub_theme_id == su.id) = false := by
        rw [hce, List.any_append]
        have h1 : db0.courseEntries.any (fun e => e.subj_no == subj &&
            e.ps_class_nbr == cls && e.academic_year == ty &&
            e.academic_term == tt && e.sub_theme_id == su.id) = false := by
          refine any_false_of_filter_nil _ (tgtCourseKey subj cls ty tt) _ hnotgt ?_
          intro x hx
          rw [Bool.and_eq_true] at hx
          exact hx.1
        have h2 : extra.any (fun e => e.subj_no == subj &&
            e.ps_class_nbr == cls && e.academic_year == ty &&
            e.academic_term == tt && e.sub_theme_id == su.id) = false := by
          cases hany : extra.any (fun e => e.subj_no == subj &&
              e.ps_class_nbr == cls && e.academic_year == ty &&
              e.academic_term == tt && e.sub_theme_id == su.id) with
          | false => rfl
          | true =>
            exfalso
            rw [List.any_eq_true] at hany
            obtain ⟨x, hx, hpx⟩ := hany
            rw [Bool.and_eq_true, beq_iff_eq] at hpx
            exact hdisj x hx v (List.mem_cons_self v rest) hv su hsu hpx.2
        rw [h1, h2]
        rfl
      have hcopy : copy_course_entry_with_new_user db subj cls ty tt
          v.sub_theme_code v.row.indicator_value (normWeeks v.row.week_numbers)
          v.row.is_most_relevant =
          .ok (get_course_entry_by_id ({ db with
              courseEntries := db.courseEntries ++
                [⟨db.nextId, subj, cls, ty, tt, su.id, v.row.indicator_value,
                  normWeeks v.row.week_numbers, v.row.is_most_relevant⟩],
              nextId := db.nextId + 1 } : Db) db.nextId,
            { db with
              courseEntries := db.courseEntries ++
                [⟨db.nextId, subj, cls, ty, tt, su.id, v.row.indicator_value,
                  normWeeks v.row.week_numbers, v.row.is_most_relevant⟩],
              nextId := db.nextId + 1 }) := by
        unfold copy_course_entry_with_new_user
        rw [htrans]
        simp only [hguard, Bool.false_eq_true, if_false]
      have hcodes' : ((rest.filter (enabledPred enabledPairs)).map
          (fun v => v.sub_theme_code)).Nodup := by
        rw [List.filter_cons_of_pos hv, List.map_cons, List.nodup_cons] at hcodes
        exact hcodes.2
      have hvnotin : v.sub_theme_code ∉
          (rest.filter (enabledPred enabledPairs)).map
            (fun v => v.sub_theme_code) := by
        rw [List.filter_cons_of_pos hv, List.map_cons, List.nodup_cons] at hcodes
        exact hcodes.1
      obtain ⟨db', newRows, hloop, h1, h2, h3, h4, h5, h6, h7, h8, h9⟩ :=
        ih hres' hcodes' (c + 1) s
          ({ db with
            courseEntries := db.courseEntries ++
              [⟨db.nextId, subj, cls, ty, tt, su.id, v.row.indicator_value,
                normWeeks v.row.week_numbers, v.row.is_most_relevant⟩],
            nextId := db.nextId + 1 } : Db)
          (extra ++ [⟨db.nextId, subj, cls, ty, tt, su.id, v.row.indicator_value,
            normWeeks v.row.week_numbers, v.row.is_most_relevant⟩])
          hsub hsets
          (by
            show db.courseEntries ++ _ = _
            rw [hce, List.append_assoc])
          (by
            intro x hx w hw hwen su2 hsu2
            rcases List.mem_append.mp hx with hx | hx
            · exact hdisj x hx w (List.mem_cons_of_mem v hw) hwen su2 hsu2
            · rw [List.mem_singleton] at hx
              subst hx
              show su.id ≠ su2.id
              intro hc
              have hsu2mem : su2 ∈ db0.subThemes := List.mem_of_find?_eq_some hsu2
              have heq : su = su2 := List.inj_on_of_nodup_map hcat hsumem hsu2mem hc
              have hsu2code : su2.sub_theme_code = w.sub_theme_code := by
                have h := List.find?_some hsu2
                simp only [Bool.and_eq_true, beq_iff_eq] at h
                exact h.1
              apply hvnotin
              rw [← hsucode, heq, hsu2code]
              exact List.mem_map_of_mem _
                (List.mem_filter.mpr ⟨hw, hwen⟩))
      have hstep : copyEntriesLoop subj cls ty tt enabledPairs (v :: rest)
          (c, s, db) =
          copyEntriesLoop subj cls ty tt enabledPairs rest (c + 1, s,
            ({ db with
              courseEntries := db.courseEntries ++
                [⟨db.nextId, subj, cls, ty, tt, su.id, v.row.indicator_value,
                  normWeeks v.row.week_numbers, v.row.is_most_relevant⟩],
              nextId := db.nextId + 1 } : Db)) := by
        show (if enabledPairs.contains (v.theme_code, v.sub_theme_code) = true then
            (match copy_course_entry_with_new_user db subj cls ty tt
                v.sub_theme_code v.row.indicator_value
                (normWeeks v.row.week_numbers) v.row.is_most_relevant with
              | .error e => (.error e : Except DbErr (Nat × Nat × Db))
              | .ok (_, db') =>
                copyEntriesLoop subj cls ty tt enabledPairs rest (c + 1, s, db'))
            else copyEntriesLoop subj cls ty tt enabledPairs rest (c, s + 1, db)) = _
        rw [enabledPred] at hv
        rw [hv]
        simp only [eq_self_iff_true, if_true]
        rw [hcopy]
      refine ⟨db', (⟨db.nextId, subj, cls, ty, tt, su.id, v.row.indicator_value,
        normWeeks v.row.week_numbers, v.row.is_most_relevant⟩ : CourseEntry) ::
        newRows, ?_, h1, h2, h3, h4, h5, ?_, ?_, ?_, ?_⟩
      · rw [hstep, hloop, List.filter_cons_of_pos hv,
          List.filter_cons_of_neg (by simp [hv]), List.length_cons]
        have e1 : c + 1 + (rest.filter (enabledPred enabledPairs)).length =
            c + ((rest.filter (enabledPred enabledPairs)).length + 1) := by
          omega
        rw [e1]
      · rw [h6]
        show (db.courseEntries ++ _) ++ newRows = _
        rw [List.append_assoc, List.singleton_append]
      · intro x hx
        rcases List.mem_cons.mp hx with hx | hx
        · subst hx
          exact ⟨rfl, rfl, rfl, rfl⟩
        · exact h7 x hx
      · rw [List.map_cons, h8, List.filter_cons_of_pos hv, List.map_cons]
      · rw [List.map_cons, h9, List.filter_cons_of_pos hv, List.map_cons]
        have hcode : catalogSubCode db0 su.id = some v.sub_theme_code := by
          rw [catalogSubCode, find?_key_self SubTheme.id db0.subThemes hcat su hsumem]
          simp [hsucode]
        rw [show catalogSubCode db0
          (⟨db.nextId, subj, cls, ty, tt, su.id, v.row.indicator_value,
            normWeeks v.row.week_numbers, v.row.is_most_relevant⟩ :
            CourseEntry).sub_theme_id = some v.sub_theme_code from hcode]

/-- C5 (amended): for a course with source entries and a target year-term
with enabled settings, when the course has no pre-existing target entries and
the enabled source codes resolve (distinctly) at the target, copyCourseEntries
copies a source entry exactly when its (theme_code, sub_theme_code) pair is
enabled in the target, counts every non-enabled source entry as skipped, so
copied_count + skipped_count equals the number of source entries, reports
deleted_count 0, and afterwards the course's target-year-term rows are
exactly the copies of the enabled source entries (same indicator value,
normalised week numbers, most-relevant flag, and a sub-theme carrying the
source row's sub_theme_code), other rows being untouched. deleted_count
counts the pre-existing joined target entries before deletion; the deletions
themselves go through a by-code resolution that can miss aliased codes, as
the counterexample shows. -/
theorem C5_amended_copy_filtering (db : Db) (subj cls : String) (sy st ty tt : Nat)
    (hcat : (db.subThemes.map SubTheme.id).Nodup)
    (hsrc : get_course_entries_by_subj_no db subj cls sy st ≠ [])
    (hen : get_enabled_theme_sub_themes db ty tt ≠ [])
    (hnotgt : db.courseEntries.filter (tgtCourseKey subj cls ty tt) = [])
    (hres : ∀ v ∈ get_course_entries_by_subj_no db subj cls sy st,
      enabledPred (get_enabled_theme_sub_themes db ty tt) v = true →
      (findSubThemeByCodeAnySetting db ty tt v.sub_theme_code).isSome = true)
    (hcodes : (((get_course_entries_by_subj_no db subj cls sy st).filter
      (enabledPred (get_enabled_theme_sub_themes db ty tt))).map
      (fun v => v.sub_theme_code)).Nodup) :
    ∃ db2,
      copy_course_entries db subj cls sy st ty tt =
        .ok (⟨((get_course_entries_by_subj_no db subj cls sy st).filter
            (enabledPred (get_enabled_theme_sub_themes db ty tt))).length,
          ((get_course_entries_by_subj_no db subj cls sy st).filter
            (fun v => !enabledPred (get_enabled_theme_sub_themes db ty tt) v)).length,
          0⟩, db2) ∧
      ((get_course_entries_by_subj_no db subj cls sy st).filter
          (enabledPred (get_enabled_theme_sub_themes db ty tt))).length +
        ((get_course_entries_by_subj_no db subj cls sy st).filter
          (fun v => !enabledPred (get_enabled_theme_sub_themes db ty tt) v)).length =
        (get_course_entries_by_subj_no db subj cls sy st).length ∧
      (db2.courseEntries.filter (tgtCourseKey subj cls ty tt)).map
          (fun e => (e.indicator_value, e.week_numbers, e.is_most_relevant)) =
        ((get_course_entries_by_subj_no db subj cls sy st).filter
          (enabledPred (get_enabled_theme_sub_themes db ty tt))).map
          (fun v => (v.row.indicator_value, normWeeks v.row.week_numbers,
            v.row.is_most_relevant)) ∧
      (db2.courseEntries.filter (tgtCourseKey subj cls ty tt)).map
          (fun e => catalogSubCode db e.sub_theme_id) =
        ((get_course_entries_by_subj_no db subj cls sy st).filter
          (enabledPred (get_enabled_theme_sub_themes db ty tt))).map
          (fun v => some v.sub_theme_code) ∧
      db2.courseEntries.filter (fun e => !tgtCourseKey subj cls ty tt e) =
        db.courseEntries.filter (fun e => !tgtCourseKey subj cls ty tt e) := by
  have hnotgtviews : get_course_entries_by_subj_no db subj cls ty tt = [] := by
    rw [get_course_entries_by_subj_no]
    rw [show db.courseEntries.filter (fun e => e.subj_no == subj &&
      e.ps_class_nbr == cls && e.academic_year == ty && e.academic_term == tt) =
      [] from hnotgt]
    rfl
  obtain ⟨db', newRows, hloop, h1, h2, h3, h4, h5, h6, h7, h8, h9⟩ :=
    copyEntriesLoop_spec db subj cls ty tt (get_enabled_theme_sub_themes db ty tt)
      hcat hnotgt (get_course_entries_by_subj_no db subj cls sy st) hres hcodes
      0 0 db [] rfl rfl (by simp) (by simp)
  have hfiltgt : db'.courseEntries.filter (tgtCourseKey subj cls ty tt) =
      newRows := by
    rw [h6, List.filter_append, hnotgt, List.nil_append]
    refine List.filter_eq_self.mpr ?_
    intro x hx
    obtain ⟨k1, k2, k3, k4⟩ := h7 x hx
    simp [tgtCourseKey, k1, k2, k3, k4]
  refine ⟨db', ?_, ?_, ?_, ?_, ?_⟩
  · have hsrcne : (get_course_entries_by_subj_no db subj cls sy st).isEmpty =
        false := by
      cases hq : get_course_entries_by_subj_no db subj cls sy st with
      | nil => exact absurd hq hsrc
      | cons a l => rfl
    have henne : (get_enabled_theme_sub_themes db ty tt).isEmpty = false := by
      cases hq : get_enabled_theme_sub_themes db ty tt with
      | nil => exact absurd hq hen
      | cons a l => rfl
    rw [copy_course_entries]
    simp only [hsrcne, Bool.false_eq_true, if_false, henne, hnotgtviews]
    rw [show ([] : List EntryView).foldl (fun d v =>
      (delete_course_entry d subj cls ty tt v.sub_theme_code).2) db = db from rfl]
    rw [hloop]
    simp
  · exact length_filter_partition _ _
  · rw [hfiltgt, h8]
  · rw [hfiltgt, h9]
  · rw [h6, List.filter_append]
    have hdrop : newRows.filter (fun e => !tgtCourseKey subj cls ty tt e) = [] := by
      rw [List.filter_eq_nil_iff]
      intro x hx
      obtain ⟨k1, k2, k3, k4⟩ := h7 x hx
      simp [tgtCourseKey, k1, k2, k3, k4]
    rw [hdrop, List.append_nil]

/-- Failing input for the original claim: catalog sub-themes 11 (theme A401)
and 12 (theme A501) share the code 1010; the course has one source entry at
(112,2) under sub-theme 11 and one pre-existing target entry at (113,1) under
sub-theme 12, and only sub-theme 11 has a (113,1) setting row. -/
def dbC5 : Db :=
  ⟨[⟨1, "A401", "技術主題", "技術"⟩, ⟨2, "A501", "素養主題", "素養"⟩],
   [⟨11, 1, "1010", "甲"⟩, ⟨12, 2, "1010", "乙"⟩],
   [], [⟨41, 113, 1, 11, true⟩],
   [⟨51, "CS1", "01", 112, 2, 11, "3", none, false⟩,
    ⟨52, "CS1", "01", 113, 1, 12, "2", none, false⟩],
   [], 500⟩

/-- C5 counterexample: the copy reports deleted_count = 1 for the
pre-existing target entry, but the by-code deletion resolves the shared code
1010 to the other theme's sub-theme and deletes nothing: entry 52 is still
present afterwards, contradicting the claim that pre-existing target entries
for the course are deleted. -/
theorem C5_counterexample_aliased_code_not_deleted :
    Except.map (fun p => (p.1, p.2.courseEntries.any (fun e => e.id == 52)))
      (copy_course_entries dbC5 "CS1" "01" 112 2 113 1) =
    .ok (⟨1, 0, 1⟩, true) := by rfl

/-- Witness database for the amended C5: theme A101 with sub-themes 9 (code
01, enabled at the target (113,1)) and 10 (code 02, disabled there); the
course has two source entries at (112,2) - one per sub-theme - and no target
entries. -/
def dbW5 : Db :=
  ⟨[⟨1, "A101", "SDGs", "SDGs"⟩],
   [⟨9, 1, "01", "消除貧窮"⟩, ⟨10, 1, "02", "終止飢餓"⟩],
   [], [⟨41, 113, 1, 9, true⟩, ⟨42, 113, 1, 10, false⟩],
   [⟨51, "CS1", "01", 112, 2, 9, "3", some [1, 2], false⟩,
    ⟨52, "CS1", "01", 112, 2, 10, "2", none, true⟩],
   [], 500⟩

/-- C5 witness: the amended theorem applied at dbW5, copying course CS1-01
from (112,2) to (113,1): the enabled source entry (code 01) is copied, the
non-enabled one (code 02) is skipped, 1 + 1 covers both source entries, and
the target year-term afterwards holds exactly the one copied row. -/
theorem C5_amended_witness :
    get_course_entries_by_subj_no dbW5 "CS1" "01" 112 2 ≠ [] ∧
    ∃ db2,
      copy_course_entries dbW5 "CS1" "01" 112 2 113 1 = .ok (⟨1, 1, 0⟩, db2) ∧
      (db2.courseEntries.filter (tgtCourseKey "CS1" "01" 113 1)).map
          (fun e => (e.indicator_value, e.week_numbers, e.is_most_relevant)) =
        [("3", some [1, 2], false)] ∧
      (db2.courseEntries.filter (tgtCourseKey "CS1" "01" 113 1)).map
          (fun e => catalogSubCode dbW5 e.sub_theme_id) = [some "01"] := by
  obtain ⟨db2, hok, hsum, hpay, hcode, hframe⟩ :=
    C5_amended_copy_filtering dbW5 "CS1" "01" 112 2 113 1 (by decide) (by decide)
      (by decide) (by decide) (by decide) (by decide)
  refine ⟨by decide, db2, ?_, ?_, ?_⟩
  · rw [hok]
    rfl
  · rw [hpay]
    rfl
  · rw [hcode]
    rfl
